import Mathlib

/-!
Verification development for the MaxDuino MZF (Sharp MZ) and CAQ (Mattel
Aquarius) cassette waveform encoders (`src/MaxDuino/mzf.cpp`).

The C sources are shallowly embedded: every file-scope mutable variable of
the two encoders, together with the external globals they touch
(`currentPeriod`, `currentID`, `currentTask`, `count_r`, `bytesRead`,
`outByte`, `BAUDRATE`), becomes a field of an explicit state record, and
each C function becomes a Lean function on that record.  Machine integers
are `Nat` with explicit `% 2^w` truncation exactly where the C code can
overflow or wrap.  The storage abstraction (`entry.seekSet` / `entry.read`
/ `ReadByte`), which lives outside the given sources, is modelled from the
spec as a sequential byte stream carried in the state.
-/

set_option maxRecDepth 10000

namespace MaxDuino

/-- The MZF stage enumeration (`enum class MZF_STAGE` in mzf.cpp). -/
inductive MZF_STAGE : Type where
  | LGAP1 | LTM_LONG | LTM_SHORT | LTM_ENDLONG
  | HDR1 | CHKH1 | HDR2 | CHKH2
  | SGAP | STM_LONG | STM_SHORT | STM_ENDLONG
  | FILE1 | CHKF1 | FILE2 | CHKF2
  | DONE
deriving DecidableEq, Repr

/-- Byte sources for the MZF byte writer (`enum class BYTE_SRC`). -/
inductive BYTE_SRC : Type where
  | HDR | FILE | CHK
deriving DecidableEq, Repr

/-- Modelled from the spec: the session hand-off block identity enumeration
(`BLOCKID`, declared in MaxDuino.h which is not among the given sources).
Only the values the encoders use are distinguished; `OTHER` stands for any
other block id the surrounding system may have set. -/
inductive BLOCKID : Type where
  | MZF | CAQ | IDEOF | OTHER
deriving DecidableEq, Repr

/-- Modelled from the spec: the scheduler task enumeration (`TASK`, declared
outside the given sources).  `OTHER` stands for any task other than
`PROCESSID`. -/
inductive TASK : Type where
  | PROCESSID | OTHER
deriving DecidableEq, Repr

-- Sharp MZ tape PWM timing constants (word = uint16).
def MZF_LONG_UP_US : Nat := 464

def MZF_LONG_DOWN_US : Nat := 494

def MZF_SHORT_UP_US : Nat := 240

def MZF_SHORT_DOWN_US : Nat := 264

def MZF_LGAP_PULSES : Nat := 22000

def MZF_SGAP_PULSES : Nat := 11000

def MZF_LTM_LONGS : Nat := 40

def MZF_LTM_SHORTS : Nat := 40

def MZF_STM_LONGS : Nat := 20

def MZF_STM_SHORTS : Nat := 20

/-- The complete mutable state the MZF encoder touches: the file-scope
statics of mzf.cpp plus the external globals it reads or writes, plus the
byte stream standing for the open file (`fileStream` is the list of bytes
`ReadByte` will deliver next; modelled from the spec's byte source
interface). -/
structure MzfState : Type where
  mzf_stage : MZF_STAGE
  mzf_hdr : List Nat            -- byte[128], cached header
  mzf_file_len : Nat            -- uint16
  mzf_hdr_cksum : Nat           -- uint16
  mzf_file_cksum : Nat          -- uint16
  mzf_pulses_left : Nat         -- uint32
  mzf_file_left : Nat           -- uint16
  mzf_tm_left : Nat             -- uint8
  mzf_src : BYTE_SRC
  mzf_hdr_idx : Nat             -- uint16
  mzf_cur_byte : Nat            -- byte
  mzf_have_byte : Bool
  mzf_leader_done : Bool
  mzf_bit_mask : Nat            -- uint8
  mzf_chk_byte_idx : Nat        -- uint8
  mzf_half : Nat                -- uint8, 0 = UP, 1 = DOWN
  currentPeriod : Nat           -- word, output interface
  currentID : BLOCKID
  currentTask : TASK
  count_r : Nat                 -- uint8
  bytesRead : Nat               -- stream position
  fileStream : List Nat         -- bytes ReadByte will deliver
  outByte : Nat                 -- byte, ReadByte output register
deriving DecidableEq, Repr

/-- `popcount8` from mzf.cpp: SWAR population count of a byte.  Each
assignment back to the `uint8_t` variable truncates modulo 256 (the
intermediate C arithmetic is on promoted nonnegative ints, so `Nat`
subtraction agrees: `(v >> 1) & 0x55 ≤ v`). -/
def popcount8 (v : Nat) : Nat :=
  let v1 := (v - ((v >>> 1) &&& 0x55)) % 256
  let v2 := ((v1 &&& 0x33) + ((v1 >>> 2) &&& 0x33)) % 256
  ((((v2 + (v2 >>> 4)) &&& 0x0F) * 0x01) &&& 0x1F)

/-- `mzf_cksum_add`: 16-bit accumulating popcount checksum. -/
def mzf_cksum_add (acc v : Nat) : Nat :=
  (acc + popcount8 v) % 65536

/-- `mzf_emit_pulse`: emit one half-period of a pulse; returns true when the
full pulse (UP then DOWN) has been emitted. -/
def mzf_emit_pulse (isLong : Bool) (s : MzfState) : Bool × MzfState :=
  if s.mzf_half = 0 then
    (false, { s with
      currentPeriod := if isLong then MZF_LONG_UP_US else MZF_SHORT_UP_US,
      mzf_half := 1 })
  else
    (true, { s with
      currentPeriod := if isLong then MZF_LONG_DOWN_US else MZF_SHORT_DOWN_US,
      mzf_half := 0 })

/-- `mzf_next_stage`: advance to stage `st`, resetting the half-wave and
byte-writer cursors. -/
def mzf_next_stage (st : MZF_STAGE) (s : MzfState) : MzfState :=
  { s with
    mzf_stage := st,
    mzf_half := 0,
    mzf_have_byte := false,
    mzf_leader_done := false,
    mzf_bit_mask := 0x80,
    mzf_chk_byte_idx := 0 }

/-- Modelled from the spec: `ReadByte` (file_utils, not among the given
sources) — the sequential "read next byte" operation over the open tape
image: it either delivers the next byte into `outByte`, advancing
`bytesRead`, and succeeds, or reports exhaustion without changing state. -/
def ReadByte (s : MzfState) : Bool × MzfState :=
  match s.fileStream with
  | [] => (false, s)
  | b :: rest =>
    (true, { s with outByte := b, fileStream := rest, bytesRead := s.bytesRead + 1 })

/-- `mzf_init`: read and cache the 128-byte tape header, precompute its
checksum, and start the stage machine at LGAP1.  `seekOk` models the result
of `entry.seekSet(0)` and `file` the full contents of the open file
(modelled from the spec's byte source interface: the header read returns
`min 128 file.length` bytes, and subsequent streaming starts at offset
128). -/
def mzf_init (seekOk : Bool) (file : List Nat) (s : MzfState) : MzfState :=
  let s := { s with mzf_stage := MZF_STAGE.DONE, mzf_half := 0 }
  if !seekOk then
    { s with currentID := BLOCKID.IDEOF }
  else
    let r := min 128 file.length
    let s := { s with mzf_hdr := file.take r ++ s.mzf_hdr.drop r }
    if r ≠ 128 then
      { s with currentID := BLOCKID.IDEOF }
    else
      let s := { s with
        mzf_file_len :=
          (s.mzf_hdr.getD 18 0) ||| ((s.mzf_hdr.getD 19 0) <<< 8),
        mzf_hdr_cksum := (List.range 128).foldl
          (fun acc i => mzf_cksum_add acc (s.mzf_hdr.getD i 0)) 0,
        bytesRead := 128,
        fileStream := file.drop 128,
        currentTask := TASK.PROCESSID,
        currentID := BLOCKID.MZF,
        mzf_pulses_left := MZF_LGAP_PULSES }
      mzf_next_stage MZF_STAGE.LGAP1 s

/-- `mzf_load_next_byte`: pull the next byte from the active source (cached
header / streamed file body / checksum bytes). -/
def mzf_load_next_byte (s : MzfState) : Bool × MzfState :=
  match s.mzf_src with
  | BYTE_SRC.HDR =>
    if 128 ≤ s.mzf_hdr_idx then (false, s)
    else
      (true, { s with
        mzf_cur_byte := s.mzf_hdr.getD s.mzf_hdr_idx 0,
        mzf_hdr_idx := s.mzf_hdr_idx + 1,
        mzf_have_byte := true })
  | BYTE_SRC.FILE =>
    if s.mzf_file_left = 0 then (false, s)
    else
      match ReadByte s with
      | (false, s1) => (false, s1)
      | (true, s1) =>
        (true, { s1 with
          mzf_cur_byte := s1.outByte,
          mzf_have_byte := true,
          mzf_file_left := s1.mzf_file_left - 1,
          mzf_file_cksum := mzf_cksum_add s1.mzf_file_cksum s1.outByte })
  | BYTE_SRC.CHK =>
    if 2 ≤ s.mzf_chk_byte_idx then (false, s)
    else
      let v := if s.mzf_stage = MZF_STAGE.CHKH1 ∨ s.mzf_stage = MZF_STAGE.CHKH2
        then s.mzf_hdr_cksum else s.mzf_file_cksum
      let b := if s.mzf_chk_byte_idx = 0 then v >>> 8 else v &&& 0xFF
      (true, { s with
        mzf_cur_byte := b,
        mzf_have_byte := true,
        mzf_chk_byte_idx := s.mzf_chk_byte_idx + 1 })

/-- `mzf_reset_byte_writer_for_src`. -/
def mzf_reset_byte_writer_for_src (src : BYTE_SRC) (s : MzfState) : MzfState :=
  { s with
    mzf_src := src,
    mzf_have_byte := false,
    mzf_leader_done := false,
    mzf_bit_mask := 0x80,
    mzf_chk_byte_idx := 0 }

/-- `mzf_process_bytes`: one tick of the byte-emission sub-protocol (the
`totalBytesForHDR` argument is ignored by the C code and omitted here). -/
def mzf_process_bytes (s : MzfState) : MzfState :=
  -- Ensure a current byte is loaded, unless finished for this stage.
  let step2 : MzfState → MzfState := fun s =>
    if !s.mzf_leader_done then
      -- each byte is preceded by 1 long pulse
      match mzf_emit_pulse true s with
      | (true, s1) => { s1 with mzf_leader_done := true }
      | (false, s1) => s1
    else
      -- then 8 PWM pulses, MSB first
      let bitIsOne := (s.mzf_cur_byte &&& s.mzf_bit_mask) ≠ 0
      match mzf_emit_pulse bitIsOne s with
      | (true, s1) =>
        let s2 := { s1 with mzf_bit_mask := s1.mzf_bit_mask >>> 1 }
        if s2.mzf_bit_mask = 0 then { s2 with mzf_have_byte := false } else s2
      | (false, s1) => s1
  if !s.mzf_have_byte then
    match mzf_load_next_byte s with
    | (false, s1) => { s1 with currentPeriod := 0 }  -- done with this stage
    | (true, s1) =>
      step2 { s1 with mzf_leader_done := false, mzf_bit_mask := 0x80 }
  else
    step2 s

/-- uint32 pre-decrement as in `--mzf_pulses_left`: subtraction with wrap
modulo 2^32 (`(n + 2^32 - 1) % 2^32`, written without the huge literal in an
argument of `+` so the term evaluates structurally). -/
def dec32 (n : Nat) : Nat := if n = 0 then 4294967295 else n - 1

/-- uint8 pre-decrement as in `--mzf_tm_left`: subtraction with wrap modulo
2^8. -/
def dec8 (n : Nat) : Nat := if n = 0 then 255 else n - 1

/-- `mzf_process`: one tick of the MZF stage machine. -/
def mzf_process (s : MzfState) : MzfState :=
  match s.mzf_stage with
  | MZF_STAGE.LGAP1 =>
    match mzf_emit_pulse false s with
    | (true, s1) =>
      let s2 := { s1 with mzf_pulses_left := dec32 s1.mzf_pulses_left }
      if s2.mzf_pulses_left = 0 then
        mzf_next_stage MZF_STAGE.LTM_LONG { s2 with mzf_tm_left := MZF_LTM_LONGS }
      else s2
    | (false, s1) => s1
  | MZF_STAGE.LTM_LONG =>
    match mzf_emit_pulse true s with
    | (true, s1) =>
      let s2 := { s1 with mzf_tm_left := dec8 s1.mzf_tm_left }
      if s2.mzf_tm_left = 0 then
        mzf_next_stage MZF_STAGE.LTM_SHORT { s2 with mzf_tm_left := MZF_LTM_SHORTS }
      else s2
    | (false, s1) => s1
  | MZF_STAGE.LTM_SHORT =>
    match mzf_emit_pulse false s with
    | (true, s1) =>
      let s2 := { s1 with mzf_tm_left := dec8 s1.mzf_tm_left }
      if s2.mzf_tm_left = 0 then
        mzf_next_stage MZF_STAGE.LTM_ENDLONG s2
      else s2
    | (false, s1) => s1
  | MZF_STAGE.LTM_ENDLONG =>
    match mzf_emit_pulse true s with
    | (true, s1) =>
      mzf_next_stage MZF_STAGE.HDR1
        (mzf_reset_byte_writer_for_src BYTE_SRC.HDR { s1 with mzf_hdr_idx := 0 })
    | (false, s1) => s1
  | MZF_STAGE.HDR1 =>
    let s1 := mzf_process_bytes s
    if s1.currentPeriod = 0 then
      mzf_next_stage MZF_STAGE.CHKH1 (mzf_reset_byte_writer_for_src BYTE_SRC.CHK s1)
    else s1
  | MZF_STAGE.CHKH1 =>
    let s1 := mzf_process_bytes s
    if s1.currentPeriod = 0 then
      mzf_next_stage MZF_STAGE.HDR2
        (mzf_reset_byte_writer_for_src BYTE_SRC.HDR { s1 with mzf_hdr_idx := 0 })
    else s1
  | MZF_STAGE.HDR2 =>
    let s1 := mzf_process_bytes s
    if s1.currentPeriod = 0 then
      mzf_next_stage MZF_STAGE.CHKH2 (mzf_reset_byte_writer_for_src BYTE_SRC.CHK s1)
    else s1
  | MZF_STAGE.CHKH2 =>
    let s1 := mzf_process_bytes s
    if s1.currentPeriod = 0 then
      mzf_next_stage MZF_STAGE.SGAP { s1 with mzf_pulses_left := MZF_SGAP_PULSES }
    else s1
  | MZF_STAGE.SGAP =>
    match mzf_emit_pulse false s with
    | (true, s1) =>
      let s2 := { s1 with mzf_pulses_left := dec32 s1.mzf_pulses_left }
      if s2.mzf_pulses_left = 0 then
        mzf_next_stage MZF_STAGE.STM_LONG { s2 with mzf_tm_left := MZF_STM_LONGS }
      else s2
    | (false, s1) => s1
  | MZF_STAGE.STM_LONG =>
    match mzf_emit_pulse true s with
    | (true, s1) =>
      let s2 := { s1 with mzf_tm_left := dec8 s1.mzf_tm_left }
      if s2.mzf_tm_left = 0 then
        mzf_next_stage MZF_STAGE.STM_SHORT { s2 with mzf_tm_left := MZF_STM_SHORTS }
      else s2
    | (false, s1) => s1
  | MZF_STAGE.STM_SHORT =>
    match mzf_emit_pulse false s with
    | (true, s1) =>
      let s2 := { s1 with mzf_tm_left := dec8 s1.mzf_tm_left }
      if s2.mzf_tm_left = 0 then
        mzf_next_stage MZF_STAGE.STM_ENDLONG s2
      else s2
    | (false, s1) => s1
  | MZF_STAGE.STM_ENDLONG =>
    match mzf_emit_pulse true s with
    | (true, s1) =>
      -- file body (copy 1)
      let s2 := { s1 with
        bytesRead := 128,
        mzf_file_left := s1.mzf_file_len,
        mzf_file_cksum := 0 }
      mzf_next_stage MZF_STAGE.FILE1 (mzf_reset_byte_writer_for_src BYTE_SRC.FILE s2)
    | (false, s1) => s1
  | MZF_STAGE.FILE1 =>
    let s1 := mzf_process_bytes s
    if s1.currentPeriod = 0 then
      mzf_next_stage MZF_STAGE.CHKF1 (mzf_reset_byte_writer_for_src BYTE_SRC.CHK s1)
    else s1
  | MZF_STAGE.CHKF1 =>
    let s1 := mzf_process_bytes s
    if s1.currentPeriod = 0 then
      -- stop after the first FILE+CHK block and return to menu
      mzf_next_stage MZF_STAGE.DONE s1
    else s1
  | MZF_STAGE.FILE2 =>
    let s1 := mzf_process_bytes s
    if s1.currentPeriod = 0 then
      mzf_next_stage MZF_STAGE.CHKF2 (mzf_reset_byte_writer_for_src BYTE_SRC.CHK s1)
    else s1
  | MZF_STAGE.CHKF2 =>
    let s1 := mzf_process_bytes s
    if s1.currentPeriod = 0 then
      mzf_next_stage MZF_STAGE.DONE s1
    else s1
  | MZF_STAGE.DONE =>
    -- End of file: hand off to existing EOF handler
    { s with
      currentID := BLOCKID.IDEOF,
      currentTask := TASK.PROCESSID,
      count_r := 255,
      currentPeriod := 0 }

/-- Iterate `mzf_process` for `n` ticks. -/
def mzfRun : Nat → MzfState → MzfState
  | 0, s => s
  | n + 1, s => mzfRun n (mzf_process s)

/-- Run `n` ticks of `mzf_process`, collecting the emitted `currentPeriod`
values; returns the period trace and the final state. -/
def mzfTR : Nat → MzfState → List Nat × MzfState
  | 0, s => ([], s)
  | n + 1, s =>
    let s1 := mzf_process s
    let p := mzfTR n s1
    (s1.currentPeriod :: p.1, p.2)

/-- The stage successor order of the MZF machine as implemented. -/
def mzfSucc : MZF_STAGE → MZF_STAGE
  | MZF_STAGE.LGAP1 => MZF_STAGE.LTM_LONG
  | MZF_STAGE.LTM_LONG => MZF_STAGE.LTM_SHORT
  | MZF_STAGE.LTM_SHORT => MZF_STAGE.LTM_ENDLONG
  | MZF_STAGE.LTM_ENDLONG => MZF_STAGE.HDR1
  | MZF_STAGE.HDR1 => MZF_STAGE.CHKH1
  | MZF_STAGE.CHKH1 => MZF_STAGE.HDR2
  | MZF_STAGE.HDR2 => MZF_STAGE.CHKH2
  | MZF_STAGE.CHKH2 => MZF_STAGE.SGAP
  | MZF_STAGE.SGAP => MZF_STAGE.STM_LONG
  | MZF_STAGE.STM_LONG => MZF_STAGE.STM_SHORT
  | MZF_STAGE.STM_SHORT => MZF_STAGE.STM_ENDLONG
  | MZF_STAGE.STM_ENDLONG => MZF_STAGE.FILE1
  | MZF_STAGE.FILE1 => MZF_STAGE.CHKF1
  | MZF_STAGE.CHKF1 => MZF_STAGE.DONE
  | MZF_STAGE.FILE2 => MZF_STAGE.CHKF2
  | MZF_STAGE.CHKF2 => MZF_STAGE.DONE
  | MZF_STAGE.DONE => MZF_STAGE.DONE

/-- Canonical demo session: an all-zero 128-byte header (declared file
length 0) and no body bytes. -/
def mzfStart0 : MzfState :=
  ⟨MZF_STAGE.DONE, List.replicate 128 0, 0, 0, 0, 0, 0, 0, BYTE_SRC.HDR, 0, 0,
   false, false, 128, 0, 0, 0, BLOCKID.OTHER, TASK.OTHER, 0, 0, [], 0⟩

def mzfZeroFile : List Nat := List.replicate 128 0

def mzfDemoInit : MzfState := mzf_init true mzfZeroFile mzfStart0

/-- State of the demo session on entry to LTM_LONG. -/
def mzfLtmEntry : MzfState :=
  ⟨MZF_STAGE.LTM_LONG, List.replicate 128 0, 0, 0, 0, 0, 0, 40, BYTE_SRC.HDR,
   0, 0, false, false, 128, 0, 0, 264, BLOCKID.MZF, TASK.PROCESSID, 0, 128, [], 0⟩

/-- State of the demo session on entry to SGAP. -/
def mzfSgapEntry : MzfState :=
  ⟨MZF_STAGE.SGAP, List.replicate 128 0, 0, 0, 0, 11000, 0, 0, BYTE_SRC.CHK,
   128, 0, false, false, 128, 0, 0, 0, BLOCKID.MZF, TASK.PROCESSID, 0, 128, [], 0⟩

/-- State of the demo session on entry to STM_LONG. -/
def mzfStmEntry : MzfState :=
  ⟨MZF_STAGE.STM_LONG, List.replicate 128 0, 0, 0, 0, 0, 0, 20, BYTE_SRC.CHK,
   128, 0, false, false, 128, 0, 0, 264, BLOCKID.MZF, TASK.PROCESSID, 0, 128, [], 0⟩

/-- Demo session checkpoint at tick 44500. -/
def mzfSeg1State : MzfState :=
  ⟨MZF_STAGE.HDR1, List.replicate 128 0, 0, 0, 0, 0, 0, 0, BYTE_SRC.HDR, 19, 0, true, true, 2, 0, 0, 264, BLOCKID.MZF, TASK.PROCESSID, 0, 128, [], 0⟩

/-- Demo session checkpoint at tick 45000. -/
def mzfSeg2State : MzfState :=
  ⟨MZF_STAGE.HDR1, List.replicate 128 0, 0, 0, 0, 0, 0, 0, BYTE_SRC.HDR, 47, 0, true, true, 8, 0, 0, 264, BLOCKID.MZF, TASK.PROCESSID, 0, 128, [], 0⟩

/-- Demo session checkpoint at tick 45500. -/
def mzfSeg3State : MzfState :=
  ⟨MZF_STAGE.HDR1, List.replicate 128 0, 0, 0, 0, 0, 0, 0, BYTE_SRC.HDR, 75, 0, true, true, 32, 0, 0, 264, BLOCKID.MZF, TASK.PROCESSID, 0, 128, [], 0⟩

/-- Demo session checkpoint at tick 46000. -/
def mzfSeg4State : MzfState :=
  ⟨MZF_STAGE.HDR1, List.replicate 128 0, 0, 0, 0, 0, 0, 0, BYTE_SRC.HDR, 103, 0, true, true, 128, 0, 0, 494, BLOCKID.MZF, TASK.PROCESSID, 0, 128, [], 0⟩

/-- Demo session checkpoint at tick 46500. -/
def mzfSeg5State : MzfState :=
  ⟨MZF_STAGE.CHKH1, List.replicate 128 0, 0, 0, 0, 0, 0, 0, BYTE_SRC.CHK, 128, 0, true, true, 2, 2, 1, 240, BLOCKID.MZF, TASK.PROCESSID, 0, 128, [], 0⟩

/-- Demo session checkpoint at tick 47000. -/
def mzfSeg6State : MzfState :=
  ⟨MZF_STAGE.HDR2, List.replicate 128 0, 0, 0, 0, 0, 0, 0, BYTE_SRC.HDR, 28, 0, true, true, 8, 0, 0, 264, BLOCKID.MZF, TASK.PROCESSID, 0, 128, [], 0⟩

/-- Demo session checkpoint at tick 47500. -/
def mzfSeg7State : MzfState :=
  ⟨MZF_STAGE.HDR2, List.replicate 128 0, 0, 0, 0, 0, 0, 0, BYTE_SRC.HDR, 56, 0, true, true, 32, 0, 0, 264, BLOCKID.MZF, TASK.PROCESSID, 0, 128, [], 0⟩

/-- Demo session checkpoint at tick 48000. -/
def mzfSeg8State : MzfState :=
  ⟨MZF_STAGE.HDR2, List.replicate 128 0, 0, 0, 0, 0, 0, 0, BYTE_SRC.HDR, 84, 0, true, true, 128, 0, 0, 494, BLOCKID.MZF, TASK.PROCESSID, 0, 128, [], 0⟩

/-- Demo session checkpoint at tick 48500. -/
def mzfSeg9State : MzfState :=
  ⟨MZF_STAGE.HDR2, List.replicate 128 0, 0, 0, 0, 0, 0, 0, BYTE_SRC.HDR, 111, 0, true, true, 1, 0, 0, 264, BLOCKID.MZF, TASK.PROCESSID, 0, 128, [], 0⟩

/-- An MZF state poised at stage `st` with the given pulse and tapemark
counters, used to witness the gap/tapemark stage runs on concrete inputs. -/
def mzfProbe (st : MZF_STAGE) (pl tm : Nat) : MzfState :=
  ⟨st, List.replicate 128 0, 0, 0, 0, pl, 0, tm, BYTE_SRC.HDR, 0, 0, false,
   false, 128, 0, 0, 0, BLOCKID.OTHER, TASK.OTHER, 0, 0, [], 0⟩

/-- Spec-side population count: the number of set bits among the 8 bits of
a byte value. -/
def popcountSpec (v : Nat) : Nat :=
  ((List.range 8).filter (fun i => v.testBit i)).length

/-- A state in the first header-checksum stage with header checksum 0xABCD,
poised to emit its two checksum bytes. -/
def mzfChkProbe : MzfState :=
  ⟨MZF_STAGE.CHKH1, List.replicate 128 0, 0, 43981, 0, 0, 0, 0, BYTE_SRC.CHK,
   0, 0, false, false, 128, 0, 0, 0, BLOCKID.MZF, TASK.PROCESSID, 0, 128, [], 0⟩

/-- A state in HDR1 poised to emit the single header byte `b`: byte writer
reset, header starting with `b`. -/
def mzfByteProbe (b : Nat) : MzfState :=
  ⟨MZF_STAGE.HDR1, b :: List.replicate 127 0, 0, 0, 0, 0, 0, 0, BYTE_SRC.HDR,
   0, 0, false, false, 128, 0, 0, 0, BLOCKID.MZF, TASK.PROCESSID, 0, 128, [], 0⟩

/-- Decode a byte from an 18-half-period byte emission: read the up half of
each of the 8 data pulses (positions 2, 4, ..., 16), long = bit 1, short =
bit 0, most significant first. -/
def pulseDecode (trace : List Nat) : Nat :=
  ((List.range 8).map
    (fun i => if trace.getD (2 + 2 * i) 0 = MZF_LONG_UP_US then 1 else 0)).foldl
    (fun a bit => 2 * a + bit) 0

/-- A FILE1 state with 3 declared body bytes left but an exhausted stream. -/
def mzfExhaustProbe : MzfState :=
  ⟨MZF_STAGE.FILE1, List.replicate 128 0, 3, 0, 0, 0, 3, 0, BYTE_SRC.FILE,
   128, 0, false, false, 128, 0, 0, 494, BLOCKID.MZF, TASK.PROCESSID, 0, 128,
   [], 0⟩

/-- The CAQ stage enumeration (`enum CAQ_STAGE`). -/
inductive CAQ_STAGE : Type where
  | START_BIT | DATA_BITS | STOP_BIT1 | STOP_BIT2 | DONE
deriving DecidableEq, Repr

def CAQ_MARK_HALF_US : Nat := 272

def CAQ_SPACE_HALF_US : Nat := 544

/-- The complete mutable state the CAQ encoder touches: its file-scope
statics plus the external globals (`BAUDRATE`, `currentPeriod`,
`currentID`, `currentTask`, `count_r`) and the byte stream standing for the
open file (modelled from the spec's byte source interface). -/
structure CaqState : Type where
  caq_stage : CAQ_STAGE
  caq_saved_baudrate : Nat      -- word
  caq_baudrate_overridden : Bool
  caq_cur_byte : Nat            -- byte
  caq_have_byte : Bool
  caq_bit_idx : Int             -- int8_t, 7 down to -1
  caq_halves_left : Nat         -- uint8
  caq_half_period : Nat         -- word
  BAUDRATE : Nat                -- word, shared setting
  currentPeriod : Nat           -- word, output interface
  currentID : BLOCKID
  currentTask : TASK
  count_r : Nat                 -- uint8
  bytesRead : Nat
  fileStream : List Nat
  outByte : Nat
deriving DecidableEq, Repr

/-- `caq_begin_bit`: arm 4 half-periods of the mark (bit 1) or space
(bit 0) half-period length. -/
def caq_begin_bit (bit_val : Bool) (s : CaqState) : CaqState :=
  { s with
    caq_half_period := if bit_val then CAQ_MARK_HALF_US else CAQ_SPACE_HALF_US,
    caq_halves_left := 4 }

/-- Modelled from the spec: `ReadByte` for the CAQ session (same sequential
byte source as for MZF). `caq_get_next_byte` wraps it. -/
def caq_get_next_byte (s : CaqState) : Bool × CaqState :=
  match s.fileStream with
  | [] => (false, s)
  | b :: rest =>
    (true, { s with
      outByte := b,
      caq_cur_byte := b,
      fileStream := rest,
      bytesRead := s.bytesRead + 1 })

/-- `caq_init`: reset the bit encoder, force 600 baud (saving the previous
global rate unless already overridden) and request CAQ processing. -/
def caq_init (s : CaqState) : CaqState :=
  let s := { s with
    caq_stage := CAQ_STAGE.START_BIT,
    caq_have_byte := false,
    caq_bit_idx := 7,
    caq_halves_left := 0,
    caq_half_period := CAQ_SPACE_HALF_US }
  let s :=
    if !s.caq_baudrate_overridden then
      { s with
        caq_saved_baudrate := s.BAUDRATE,
        BAUDRATE := 600,
        caq_baudrate_overridden := true }
    else s
  { s with
    currentID := BLOCKID.CAQ,
    currentTask := TASK.PROCESSID,
    count_r := 255 }

/-- `caq_process`: one tick of the CAQ bit encoder. -/
def caq_process (s : CaqState) : CaqState :=
  let s := { s with currentPeriod := 0 }
  -- mid-bit: just emit the next half period
  if s.caq_halves_left ≠ 0 then
    { s with
      currentPeriod := s.caq_half_period,
      caq_halves_left := s.caq_halves_left - 1 }
  else
    -- need a byte to send?
    let s :=
      if !s.caq_have_byte then
        match caq_get_next_byte s with
        | (false, s1) => { s1 with caq_stage := CAQ_STAGE.DONE }
        | (true, s1) =>
          { s1 with
            caq_have_byte := true,
            caq_stage := CAQ_STAGE.START_BIT,
            caq_bit_idx := 7 }
      else s
    match s.caq_stage with
    | CAQ_STAGE.START_BIT =>
      let s := caq_begin_bit false s
      let s := { s with caq_stage := CAQ_STAGE.DATA_BITS }
      { s with
        currentPeriod := s.caq_half_period,
        caq_halves_left := s.caq_halves_left - 1 }
    | CAQ_STAGE.DATA_BITS =>
      let bit_val : Bool := ((s.caq_cur_byte >>> s.caq_bit_idx.toNat) &&& 0x01) ≠ 0
      let s := caq_begin_bit bit_val s
      let s := { s with caq_bit_idx := s.caq_bit_idx - 1 }
      let s :=
        if s.caq_bit_idx < (0 : Int) then { s with caq_stage := CAQ_STAGE.STOP_BIT1 }
        else s
      { s with
        currentPeriod := s.caq_half_period,
        caq_halves_left := s.caq_halves_left - 1 }
    | CAQ_STAGE.STOP_BIT1 =>
      let s := caq_begin_bit true s
      let s := { s with caq_stage := CAQ_STAGE.STOP_BIT2 }
      { s with
        currentPeriod := s.caq_half_period,
        caq_halves_left := s.caq_halves_left - 1 }
    | CAQ_STAGE.STOP_BIT2 =>
      let s := caq_begin_bit true s
      let s := { s with
        caq_have_byte := false,
        caq_stage := CAQ_STAGE.START_BIT }
      { s with
        currentPeriod := s.caq_half_period,
        caq_halves_left := s.caq_halves_left - 1 }
    | CAQ_STAGE.DONE =>
      let s :=
        if s.caq_baudrate_overridden then
          { s with
            BAUDRATE := s.caq_saved_baudrate,
            caq_baudrate_overridden := false }
        else s
      { s with
        currentID := BLOCKID.IDEOF,
        currentTask := TASK.PROCESSID,
        count_r := 255,
        currentPeriod := 0 }

/-- Iterate `caq_process` for `n` ticks. -/
def caqRun : Nat → CaqState → CaqState
  | 0, s => s
  | n + 1, s => caqRun n (caq_process s)

/-- Run `n` ticks of `caq_process`, collecting the emitted periods. -/
def caqTR : Nat → CaqState → List Nat × CaqState
  | 0, s => ([], s)
  | n + 1, s =>
    let s1 := caq_process s
    let p := caqTR n s1
    (s1.currentPeriod :: p.1, p.2)

/-- A CAQ state poised to fetch and transmit the single byte `b` (baud
already overridden). -/
def caqByteProbe (b : Nat) : CaqState :=
  ⟨CAQ_STAGE.START_BIT, 0, true, 0, false, 7, 0, CAQ_SPACE_HALF_US, 600, 0,
   BLOCKID.CAQ, TASK.PROCESSID, 255, 128, [b], 0⟩

/-- A CAQ state with a configured global rate of 1200, not yet
overridden, on an exhausted stream. -/
def caqBaudProbe : CaqState :=
  ⟨CAQ_STAGE.DONE, 0, false, 0, false, 7, 0, CAQ_SPACE_HALF_US, 1200, 0,
   BLOCKID.OTHER, TASK.OTHER, 0, 0, [], 0⟩

/-- The CAQ timing invariant: the armed half-period length is always one of
the two protocol constants. -/
def caqInv (s : CaqState) : Prop :=
  s.caq_half_period = CAQ_MARK_HALF_US ∨ s.caq_half_period = CAQ_SPACE_HALF_US

theorem mzfRun_add (m n : Nat) (s : MzfState) :
    mzfRun (m + n) s = mzfRun n (mzfRun m s) := by
  induction m generalizing s with
  | zero => simp [mzfRun]
  | succ k ih =>
    have h : k + 1 + n = (k + n) + 1 := by omega
    rw [h]
    show mzfRun (k + n) (mzf_process s) = _
    rw [ih]
    rfl

theorem mzfTR_snd (n : Nat) (s : MzfState) : (mzfTR n s).2 = mzfRun n s := by
  induction n generalizing s with
  | zero => rfl
  | succ k ih => simpa [mzfTR, mzfRun] using ih (mzf_process s)

theorem mzfTR_add (m n : Nat) (s : MzfState) :
    mzfTR (m + n) s =
      ((mzfTR m s).1 ++ (mzfTR n (mzfRun m s)).1, (mzfTR n (mzfRun m s)).2) := by
  induction m generalizing s with
  | zero => simp [mzfTR, mzfRun]
  | succ k ih =>
    have h : k + 1 + n = (k + n) + 1 := by omega
    rw [h, mzfTR, mzfTR]
    simp only []
    rw [ih (mzf_process s)]
    rfl

/-- LGAP loop: with `n` short pulses left, `2*n` ticks emit `n` short
pulses and enter LTM_LONG with 40 tapemark pulses pending. -/
theorem lgap_run (n : Nat) : ∀ s : MzfState,
    s.mzf_stage = MZF_STAGE.LGAP1 → s.mzf_half = 0 → s.mzf_pulses_left = n →
    0 < n →
    mzfTR (2 * n) s =
      (List.flatten (List.replicate n [MZF_SHORT_UP_US, MZF_SHORT_DOWN_US]),
       { s with
         mzf_stage := MZF_STAGE.LTM_LONG
         mzf_half := 0
         mzf_have_byte := false
         mzf_leader_done := false
         mzf_bit_mask := 128
         mzf_chk_byte_idx := 0
         mzf_pulses_left := 0
         mzf_tm_left := MZF_LTM_LONGS
         currentPeriod := MZF_SHORT_DOWN_US }) := by
  induction n with
  | zero => intro s _ _ _ h4; omega
  | succ m ih =>
    intro s h1 h2 h3 _
    obtain ⟨st, hdr, flen, hck, fck, pl, fl, tm, src, hi, cb, hb, ld, bm, ci,
      hf, cp, cid, ct, cr, br, fs, ob⟩ := s
    simp only [] at h1 h2 h3
    subst h1 h2 h3
    have e2 : 2 * (m + 1) = (2 * m) + 1 + 1 := by omega
    rw [e2]
    cases m with
    | zero => rfl
    | succ k =>
      rw [mzfTR, mzfTR]
      have := ih ⟨MZF_STAGE.LGAP1, hdr, flen, hck, fck, k + 1, fl, tm, src, hi,
        cb, hb, ld, bm, ci, 0, MZF_SHORT_DOWN_US, cid, ct, cr, br, fs, ob⟩
        rfl rfl rfl (by omega)
      simp only [] at this ⊢
      rw [show mzf_process (mzf_process
        ⟨MZF_STAGE.LGAP1, hdr, flen, hck, fck, k + 1 + 1, fl, tm, src, hi, cb,
         hb, ld, bm, ci, 0, cp, cid, ct, cr, br, fs, ob⟩) =
        ⟨MZF_STAGE.LGAP1, hdr, flen, hck, fck, k + 1, fl, tm, src, hi, cb, hb,
         ld, bm, ci, 0, MZF_SHORT_DOWN_US, cid, ct, cr, br, fs, ob⟩ from rfl]
      rw [this]
      rw [show (mzf_process
        ⟨MZF_STAGE.LGAP1, hdr, flen, hck, fck, k + 1 + 1, fl, tm, src, hi, cb,
         hb, ld, bm, ci, 0, cp, cid, ct, cr, br, fs, ob⟩).currentPeriod
        = MZF_SHORT_UP_US from rfl]
      rw [show (List.replicate (k + 1 + 1) [MZF_SHORT_UP_US, MZF_SHORT_DOWN_US]).flatten
        = MZF_SHORT_UP_US :: MZF_SHORT_DOWN_US ::
          (List.replicate (k + 1) [MZF_SHORT_UP_US, MZF_SHORT_DOWN_US]).flatten from rfl]

/-- SGAP loop: with `n` short pulses left, `2*n` ticks emit `n` short pulses
and enter STM_LONG with 20 tapemark pulses pending. -/
theorem sgap_run (n : Nat) : ∀ s : MzfState,
    s.mzf_stage = MZF_STAGE.SGAP → s.mzf_half = 0 → s.mzf_pulses_left = n →
    0 < n →
    mzfTR (2 * n) s =
      (List.flatten (List.replicate n [MZF_SHORT_UP_US, MZF_SHORT_DOWN_US]),
       { s with
         mzf_stage := MZF_STAGE.STM_LONG
         mzf_half := 0
         mzf_have_byte := false
         mzf_leader_done := false
         mzf_bit_mask := 128
         mzf_chk_byte_idx := 0
         mzf_pulses_left := 0
         mzf_tm_left := MZF_STM_LONGS
         currentPeriod := MZF_SHORT_DOWN_US }) := by
  induction n with
  | zero => intro s _ _ _ h4; omega
  | succ m ih =>
    intro s h1 h2 h3 _
    obtain ⟨st, hdr, flen, hck, fck, pl, fl, tm, src, hi, cb, hb, ld, bm, ci,
      hf, cp, cid, ct, cr, br, fs, ob⟩ := s
    simp only [] at h1 h2 h3
    subst h1 h2 h3
    have e2 : 2 * (m + 1) = (2 * m) + 1 + 1 := by omega
    rw [e2]
    cases m with
    | zero => rfl
    | succ k =>
      rw [mzfTR, mzfTR]
      have := ih ⟨MZF_STAGE.SGAP, hdr, flen, hck, fck, k + 1, fl, tm, src, hi,
        cb, hb, ld, bm, ci, 0, MZF_SHORT_DOWN_US, cid, ct, cr, br, fs, ob⟩
        rfl rfl rfl (by omega)
      simp only [] at this ⊢
      rw [show mzf_process (mzf_process
        ⟨MZF_STAGE.SGAP, hdr, flen, hck, fck, k + 1 + 1, fl, tm, src, hi, cb,
         hb, ld, bm, ci, 0, cp, cid, ct, cr, br, fs, ob⟩) =
        ⟨MZF_STAGE.SGAP, hdr, flen, hck, fck, k + 1, fl, tm, src, hi, cb, hb,
         ld, bm, ci, 0, MZF_SHORT_DOWN_US, cid, ct, cr, br, fs, ob⟩ from rfl]
      rw [this]
      rw [show (mzf_process
        ⟨MZF_STAGE.SGAP, hdr, flen, hck, fck, k + 1 + 1, fl, tm, src, hi, cb,
         hb, ld, bm, ci, 0, cp, cid, ct, cr, br, fs, ob⟩).currentPeriod
        = MZF_SHORT_UP_US from rfl]
      rw [show (List.replicate (k + 1 + 1) [MZF_SHORT_UP_US, MZF_SHORT_DOWN_US]).flatten
        = MZF_SHORT_UP_US :: MZF_SHORT_DOWN_US ::
          (List.replicate (k + 1) [MZF_SHORT_UP_US, MZF_SHORT_DOWN_US]).flatten from rfl]

/-- Leader tapemark, long phase: with n long pulses left, 2*n ticks emit
them and enter LTM_SHORT with 40 short pulses pending. -/
theorem ltm_long_run (n : Nat) : ∀ s : MzfState,
    s.mzf_stage = MZF_STAGE.LTM_LONG → s.mzf_half = 0 → s.mzf_tm_left = n →
    0 < n →
    mzfTR (2 * n) s =
      (List.flatten (List.replicate n [MZF_LONG_UP_US, MZF_LONG_DOWN_US]),
       { s with
         mzf_stage := MZF_STAGE.LTM_SHORT
         mzf_half := 0
         mzf_have_byte := false
         mzf_leader_done := false
         mzf_bit_mask := 128
         mzf_chk_byte_idx := 0
         mzf_tm_left := MZF_LTM_SHORTS
         currentPeriod := MZF_LONG_DOWN_US }) := by
  induction n with
  | zero => intro s _ _ _ h4; omega
  | succ m ih =>
    intro s h1 h2 h3 _
    obtain ⟨st, hdr, flen, hck, fck, pl, fl, tm, src, hi, cb, hb, ld, bm, ci,
      hf, cp, cid, ct, cr, br, fs, ob⟩ := s
    simp only [] at h1 h2 h3
    subst h1 h2 h3
    have e2 : 2 * (m + 1) = (2 * m) + 1 + 1 := by omega
    rw [e2]
    cases m with
    | zero => rfl
    | succ k =>
      rw [mzfTR, mzfTR]
      have := ih ⟨MZF_STAGE.LTM_LONG, hdr, flen, hck, fck, pl, fl, k + 1, src, hi,
        cb, hb, ld, bm, ci, 0, MZF_LONG_DOWN_US, cid, ct, cr, br, fs, ob⟩
        rfl rfl rfl (by omega)
      simp only [] at this ⊢
      rw [show mzf_process (mzf_process
        ⟨MZF_STAGE.LTM_LONG, hdr, flen, hck, fck, pl, fl, k + 1 + 1, src, hi, cb,
         hb, ld, bm, ci, 0, cp, cid, ct, cr, br, fs, ob⟩) =
        ⟨MZF_STAGE.LTM_LONG, hdr, flen, hck, fck, pl, fl, k + 1, src, hi, cb, hb,
         ld, bm, ci, 0, MZF_LONG_DOWN_US, cid, ct, cr, br, fs, ob⟩ from rfl]
      rw [this]
      rw [show (mzf_process
        ⟨MZF_STAGE.LTM_LONG, hdr, flen, hck, fck, pl, fl, k + 1 + 1, src, hi, cb,
         hb, ld, bm, ci, 0, cp, cid, ct, cr, br, fs, ob⟩).currentPeriod
        = MZF_LONG_UP_US from rfl]
      rw [show (List.replicate (k + 1 + 1) [MZF_LONG_UP_US, MZF_LONG_DOWN_US]).flatten
        = MZF_LONG_UP_US :: MZF_LONG_DOWN_US ::
          (List.replicate (k + 1) [MZF_LONG_UP_US, MZF_LONG_DOWN_US]).flatten from rfl]

/-- Leader tapemark, short phase: with n short pulses left, 2*n ticks emit
them and enter LTM_ENDLONG. -/
theorem ltm_short_run (n : Nat) : ∀ s : MzfState,
    s.mzf_stage = MZF_STAGE.LTM_SHORT → s.mzf_half = 0 → s.mzf_tm_left = n →
    0 < n →
    mzfTR (2 * n) s =
      (List.flatten (List.replicate n [MZF_SHORT_UP_US, MZF_SHORT_DOWN_US]),
       { s with
         mzf_stage := MZF_STAGE.LTM_ENDLONG
         mzf_half := 0
         mzf_have_byte := false
         mzf_leader_done := false
         mzf_bit_mask := 128
         mzf_chk_byte_idx := 0
         mzf_tm_left := 0
         currentPeriod := MZF_SHORT_DOWN_US }) := by
  induction n with
  | zero => intro s _ _ _ h4; omega
  | succ m ih =>
    intro s h1 h2 h3 _
    obtain ⟨st, hdr, flen, hck, fck, pl, fl, tm, src, hi, cb, hb, ld, bm, ci,
      hf, cp, cid, ct, cr, br, fs, ob⟩ := s
    simp only [] at h1 h2 h3
    subst h1 h2 h3
    have e2 : 2 * (m + 1) = (2 * m) + 1 + 1 := by omega
    rw [e2]
    cases m with
    | zero => rfl
    | succ k =>
      rw [mzfTR, mzfTR]
      have := ih ⟨MZF_STAGE.LTM_SHORT, hdr, flen, hck, fck, pl, fl, k + 1, src, hi,
        cb, hb, ld, bm, ci, 0, MZF_SHORT_DOWN_US, cid, ct, cr, br, fs, ob⟩
        rfl rfl rfl (by omega)
      simp only [] at this ⊢
      rw [show mzf_process (mzf_process
        ⟨MZF_STAGE.LTM_SHORT, hdr, flen, hck, fck, pl, fl, k + 1 + 1, src, hi, cb,
         hb, ld, bm, ci, 0, cp, cid, ct, cr, br, fs, ob⟩) =
        ⟨MZF_STAGE.LTM_SHORT, hdr, flen, hck, fck, pl, fl, k + 1, src, hi, cb, hb,
         ld, bm, ci, 0, MZF_SHORT_DOWN_US, cid, ct, cr, br, fs, ob⟩ from rfl]
      rw [this]
      rw [show (mzf_process
        ⟨MZF_STAGE.LTM_SHORT, hdr, flen, hck, fck, pl, fl, k + 1 + 1, src, hi, cb,
         hb, ld, bm, ci, 0, cp, cid, ct, cr, br, fs, ob⟩).currentPeriod
        = MZF_SHORT_UP_US from rfl]
      rw [show (List.replicate (k + 1 + 1) [MZF_SHORT_UP_US, MZF_SHORT_DOWN_US]).flatten
        = MZF_SHORT_UP_US :: MZF_SHORT_DOWN_US ::
          (List.replicate (k + 1) [MZF_SHORT_UP_US, MZF_SHORT_DOWN_US]).flatten from rfl]

/-- Trailer tapemark, long phase: with n long pulses left, 2*n ticks emit
them and enter STM_SHORT with 20 short pulses pending. -/
theorem stm_long_run (n : Nat) : ∀ s : MzfState,
    s.mzf_stage = MZF_STAGE.STM_LONG → s.mzf_half = 0 → s.mzf_tm_left = n →
    0 < n →
    mzfTR (2 * n) s =
      (List.flatten (List.replicate n [MZF_LONG_UP_US, MZF_LONG_DOWN_US]),
       { s with
         mzf_stage := MZF_STAGE.STM_SHORT
         mzf_half := 0
         mzf_have_byte := false
         mzf_leader_done := false
         mzf_bit_mask := 128
         mzf_chk_byte_idx := 0
         mzf_tm_left := MZF_STM_SHORTS
         currentPeriod := MZF_LONG_DOWN_US }) := by
  induction n with
  | zero => intro s _ _ _ h4; omega
  | succ m ih =>
    intro s h1 h2 h3 _
    obtain ⟨st, hdr, flen, hck, fck, pl, fl, tm, src, hi, cb, hb, ld, bm, ci,
      hf, cp, cid, ct, cr, br, fs, ob⟩ := s
    simp only [] at h1 h2 h3
    subst h1 h2 h3
    have e2 : 2 * (m + 1) = (2 * m) + 1 + 1 := by omega
    rw [e2]
    cases m with
    | zero => rfl
    | succ k =>
      rw [mzfTR, mzfTR]
      have := ih ⟨MZF_STAGE.STM_LONG, hdr, flen, hck, fck, pl, fl, k + 1, src, hi,
        cb, hb, ld, bm, ci, 0, MZF_LONG_DOWN_US, cid, ct, cr, br, fs, ob⟩
        rfl rfl rfl (by omega)
      simp only [] at this ⊢
      rw [show mzf_process (mzf_process
        ⟨MZF_STAGE.STM_LONG, hdr, flen, hck, fck, pl, fl, k + 1 + 1, src, hi, cb,
         hb, ld, bm, ci, 0, cp, cid, ct, cr, br, fs, ob⟩) =
        ⟨MZF_STAGE.STM_LONG, hdr, flen, hck, fck, pl, fl, k + 1, src, hi, cb, hb,
         ld, bm, ci, 0, MZF_LONG_DOWN_US, cid, ct, cr, br, fs, ob⟩ from rfl]
      rw [this]
      rw [show (mzf_process
        ⟨MZF_STAGE.STM_LONG, hdr, flen, hck, fck, pl, fl, k + 1 + 1, src, hi, cb,
         hb, ld, bm, ci, 0, cp, cid, ct, cr, br, fs, ob⟩).currentPeriod
        = MZF_LONG_UP_US from rfl]
      rw [show (List.replicate (k + 1 + 1) [MZF_LONG_UP_US, MZF_LONG_DOWN_US]).flatten
        = MZF_LONG_UP_US :: MZF_LONG_DOWN_US ::
          (List.replicate (k + 1) [MZF_LONG_UP_US, MZF_LONG_DOWN_US]).flatten from rfl]

/-- Trailer tapemark, short phase: with n short pulses left, 2*n ticks emit
them and enter STM_ENDLONG. -/
theorem stm_short_run (n : Nat) : ∀ s : MzfState,
    s.mzf_stage = MZF_STAGE.STM_SHORT → s.mzf_half = 0 → s.mzf_tm_left = n →
    0 < n →
    mzfTR (2 * n) s =
      (List.flatten (List.replicate n [MZF_SHORT_UP_US, MZF_SHORT_DOWN_US]),
       { s with
         mzf_stage := MZF_STAGE.STM_ENDLONG
         mzf_half := 0
         mzf_have_byte := false
         mzf_leader_done := false
         mzf_bit_mask := 128
         mzf_chk_byte_idx := 0
         mzf_tm_left := 0
         currentPeriod := MZF_SHORT_DOWN_US }) := by
  induction n with
  | zero => intro s _ _ _ h4; omega
  | succ m ih =>
    intro s h1 h2 h3 _
    obtain ⟨st, hdr, flen, hck, fck, pl, fl, tm, src, hi, cb, hb, ld, bm, ci,
      hf, cp, cid, ct, cr, br, fs, ob⟩ := s
    simp only [] at h1 h2 h3
    subst h1 h2 h3
    have e2 : 2 * (m + 1) = (2 * m) + 1 + 1 := by omega
    rw [e2]
    cases m with
    | zero => rfl
    | succ k =>
      rw [mzfTR, mzfTR]
      have := ih ⟨MZF_STAGE.STM_SHORT, hdr, flen, hck, fck, pl, fl, k + 1, src, hi,
        cb, hb, ld, bm, ci, 0, MZF_SHORT_DOWN_US, cid, ct, cr, br, fs, ob⟩
        rfl rfl rfl (by omega)
      simp only [] at this ⊢
      rw [show mzf_process (mzf_process
        ⟨MZF_STAGE.STM_SHORT, hdr, flen, hck, fck, pl, fl, k + 1 + 1, src, hi, cb,
         hb, ld, bm, ci, 0, cp, cid, ct, cr, br, fs, ob⟩) =
        ⟨MZF_STAGE.STM_SHORT, hdr, flen, hck, fck, pl, fl, k + 1, src, hi, cb, hb,
         ld, bm, ci, 0, MZF_SHORT_DOWN_US, cid, ct, cr, br, fs, ob⟩ from rfl]
      rw [this]
      rw [show (mzf_process
        ⟨MZF_STAGE.STM_SHORT, hdr, flen, hck, fck, pl, fl, k + 1 + 1, src, hi, cb,
         hb, ld, bm, ci, 0, cp, cid, ct, cr, br, fs, ob⟩).currentPeriod
        = MZF_SHORT_UP_US from rfl]
      rw [show (List.replicate (k + 1 + 1) [MZF_SHORT_UP_US, MZF_SHORT_DOWN_US]).flatten
        = MZF_SHORT_UP_US :: MZF_SHORT_DOWN_US ::
          (List.replicate (k + 1) [MZF_SHORT_UP_US, MZF_SHORT_DOWN_US]).flatten from rfl]

/-- Leader tapemark end pulse: one long pulse, then the header-1 stage is
entered with the byte writer reset to the cached header. -/
theorem ltm_endlong_run : ∀ s : MzfState,
    s.mzf_stage = MZF_STAGE.LTM_ENDLONG → s.mzf_half = 0 →
    mzfTR 2 s =
      ([MZF_LONG_UP_US, MZF_LONG_DOWN_US],
       { s with
         mzf_stage := MZF_STAGE.HDR1
         mzf_half := 0
         mzf_have_byte := false
         mzf_leader_done := false
         mzf_bit_mask := 128
         mzf_chk_byte_idx := 0
         mzf_src := BYTE_SRC.HDR
         mzf_hdr_idx := 0
         currentPeriod := MZF_LONG_DOWN_US }) := by
  intro s h1 h2
  obtain ⟨st, hdr, flen, hck, fck, pl, fl, tm, src, hi, cb, hb, ld, bm, ci,
    hf, cp, cid, ct, cr, br, fs, ob⟩ := s
  simp only [] at h1 h2
  subst h1 h2
  rfl

/-- Trailer tapemark end pulse: one long pulse, then the file-body stage is
entered with the byte writer reset to the streamed file source, the file
byte counter loaded from the header length field and the file checksum
cleared. -/
theorem stm_endlong_run : ∀ s : MzfState,
    s.mzf_stage = MZF_STAGE.STM_ENDLONG → s.mzf_half = 0 →
    mzfTR 2 s =
      ([MZF_LONG_UP_US, MZF_LONG_DOWN_US],
       { s with
         mzf_stage := MZF_STAGE.FILE1
         mzf_half := 0
         mzf_have_byte := false
         mzf_leader_done := false
         mzf_bit_mask := 128
         mzf_chk_byte_idx := 0
         mzf_src := BYTE_SRC.FILE
         mzf_file_left := s.mzf_file_len
         mzf_file_cksum := 0
         bytesRead := 128
         currentPeriod := MZF_LONG_DOWN_US }) := by
  intro s h1 h2
  obtain ⟨st, hdr, flen, hck, fck, pl, fl, tm, src, hi, cb, hb, ld, bm, ci,
    hf, cp, cid, ct, cr, br, fs, ob⟩ := s
  simp only [] at h1 h2
  subst h1 h2
  rfl

/-- `mzf_load_next_byte` never changes the stage. -/
theorem mzf_load_next_byte_stage (s : MzfState) (b : Bool) (s' : MzfState)
    (h : mzf_load_next_byte s = (b, s')) : s'.mzf_stage = s.mzf_stage := by
  obtain ⟨st, hdr, flen, hck, fck, pl, fl, tm, src, hi, cb, hb, ld, bm, ci,
    hf, cp, cid, ct, cr, br, fs, ob⟩ := s
  unfold mzf_load_next_byte ReadByte at h
  dsimp only [] at h
  cases src <;> dsimp only [] at h
  case HDR =>
    split at h <;> (injection h with h1 h2; subst h2; rfl)
  case FILE =>
    split at h
    · injection h with h1 h2; subst h2; rfl
    · cases fs <;> dsimp only [] at h <;>
        (injection h with h1 h2; subst h2; rfl)
  case CHK =>
    split at h <;> (injection h with h1 h2; subst h2; rfl)

/-- `mzf_emit_pulse` never changes the stage. -/
theorem mzf_emit_pulse_snd_stage (g : Bool) (s : MzfState) :
    ((mzf_emit_pulse g s).2).mzf_stage = s.mzf_stage := by
  unfold mzf_emit_pulse
  split <;> rfl

/-- `mzf_process_bytes` never changes the stage. -/
theorem mzf_process_bytes_stage (s : MzfState) :
    (mzf_process_bytes s).mzf_stage = s.mzf_stage := by
  unfold mzf_process_bytes
  dsimp only []
  split
  · -- !s.mzf_have_byte
    rcases hload : mzf_load_next_byte s with ⟨b, s'⟩
    have hst := mzf_load_next_byte_stage s b s' hload
    cases b <;> dsimp only []
    · exact hst
    · simp only [Bool.not_false, if_true]
      rcases hemit : mzf_emit_pulse true
        { s' with mzf_leader_done := false, mzf_bit_mask := 128 } with ⟨b1, t1⟩
      have ht1 : t1.mzf_stage = s'.mzf_stage := by
        have h2 := mzf_emit_pulse_snd_stage true
          { s' with mzf_leader_done := false, mzf_bit_mask := 128 }
        rw [hemit] at h2
        exact h2
      cases b1 <;> dsimp only [] <;> exact ht1.trans hst
  · -- byte already loaded
    split
    · rcases hemit : mzf_emit_pulse true s with ⟨b1, t1⟩
      have ht1 : t1.mzf_stage = s.mzf_stage := by
        have h2 := mzf_emit_pulse_snd_stage true s
        rw [hemit] at h2
        exact h2
      cases b1 <;> dsimp only [] <;> exact ht1
    · rcases hemit : mzf_emit_pulse ((s.mzf_cur_byte &&& s.mzf_bit_mask) ≠ 0) s
        with ⟨b1, t1⟩
      have ht1 : t1.mzf_stage = s.mzf_stage := by
        have h2 := mzf_emit_pulse_snd_stage ((s.mzf_cur_byte &&& s.mzf_bit_mask) ≠ 0) s
        rw [hemit] at h2
        exact h2
      cases b1 <;> dsimp only []
      · exact ht1
      · split <;> exact ht1

/-- Each tick either stays in the current stage or advances to its
designated successor. -/
theorem mzf_process_stage_step (s : MzfState) :
    (mzf_process s).mzf_stage = s.mzf_stage ∨
    (mzf_process s).mzf_stage = mzfSucc s.mzf_stage := by
  obtain ⟨st, hdr, flen, hck, fck, pl, fl, tm, src, hi, cb, hb, ld, bm, ci,
    hf, cp, cid, ct, cr, br, fs, ob⟩ := s
  cases st <;> cases hf <;>
    simp [mzf_process, mzf_emit_pulse, mzf_next_stage, mzfSucc,
      mzf_process_bytes_stage] <;>
    split <;>
    simp [mzf_next_stage, mzf_process_bytes_stage, mzfSucc]

/-- Leader tapemark, full run: 40 long pulses, 40 short pulses, one long
pulse, then the HDR1 stage is entered. -/
theorem ltm_full (s : MzfState)
    (h1 : s.mzf_stage = MZF_STAGE.LTM_LONG) (h2 : s.mzf_half = 0)
    (h3 : s.mzf_tm_left = MZF_LTM_LONGS) :
    mzfTR 162 s =
      (List.flatten (List.replicate 40 [MZF_LONG_UP_US, MZF_LONG_DOWN_US]) ++
       List.flatten (List.replicate 40 [MZF_SHORT_UP_US, MZF_SHORT_DOWN_US]) ++
       [MZF_LONG_UP_US, MZF_LONG_DOWN_US],
       { s with
         mzf_stage := MZF_STAGE.HDR1
         mzf_half := 0
         mzf_have_byte := false
         mzf_leader_done := false
         mzf_bit_mask := 128
         mzf_chk_byte_idx := 0
         mzf_tm_left := 0
         mzf_src := BYTE_SRC.HDR
         mzf_hdr_idx := 0
         currentPeriod := MZF_LONG_DOWN_US }) := by
  obtain ⟨st, hdr, flen, hck, fck, pl, fl, tm, src, hi, cb, hb, ld, bm, ci,
    hf, cp, cid, ct, cr, br, fs, ob⟩ := s
  simp only [] at h1 h2 h3
  subst h1 h2 h3
  have A : mzfTR 80 ⟨MZF_STAGE.LTM_LONG, hdr, flen, hck, fck, pl, fl,
      MZF_LTM_LONGS, src, hi, cb, hb, ld, bm, ci, 0, cp, cid, ct, cr, br, fs, ob⟩ =
      (List.flatten (List.replicate 40 [MZF_LONG_UP_US, MZF_LONG_DOWN_US]),
       ⟨MZF_STAGE.LTM_SHORT, hdr, flen, hck, fck, pl, fl, MZF_LTM_SHORTS, src,
        hi, cb, false, false, 128, 0, 0, MZF_LONG_DOWN_US, cid, ct, cr, br, fs, ob⟩) :=
    ltm_long_run 40 _ rfl rfl rfl (by omega)
  have B : mzfTR 80 ⟨MZF_STAGE.LTM_SHORT, hdr, flen, hck, fck, pl, fl,
      MZF_LTM_SHORTS, src, hi, cb, false, false, 128, 0, 0, MZF_LONG_DOWN_US,
      cid, ct, cr, br, fs, ob⟩ =
      (List.flatten (List.replicate 40 [MZF_SHORT_UP_US, MZF_SHORT_DOWN_US]),
       ⟨MZF_STAGE.LTM_ENDLONG, hdr, flen, hck, fck, pl, fl, 0, src,
        hi, cb, false, false, 128, 0, 0, MZF_SHORT_DOWN_US, cid, ct, cr, br, fs, ob⟩) :=
    ltm_short_run 40 _ rfl rfl rfl (by omega)
  have C : mzfTR 2 ⟨MZF_STAGE.LTM_ENDLONG, hdr, flen, hck, fck, pl, fl, 0, src,
      hi, cb, false, false, 128, 0, 0, MZF_SHORT_DOWN_US, cid, ct, cr, br, fs, ob⟩ =
      ([MZF_LONG_UP_US, MZF_LONG_DOWN_US],
       ⟨MZF_STAGE.HDR1, hdr, flen, hck, fck, pl, fl, 0, BYTE_SRC.HDR,
        0, cb, false, false, 128, 0, 0, MZF_LONG_DOWN_US, cid, ct, cr, br, fs, ob⟩) :=
    ltm_endlong_run _ rfl rfl
  have hS1 : mzfRun 80 ⟨MZF_STAGE.LTM_LONG, hdr, flen, hck, fck, pl, fl,
      MZF_LTM_LONGS, src, hi, cb, hb, ld, bm, ci, 0, cp, cid, ct, cr, br, fs, ob⟩ =
      ⟨MZF_STAGE.LTM_SHORT, hdr, flen, hck, fck, pl, fl, MZF_LTM_SHORTS, src,
       hi, cb, false, false, 128, 0, 0, MZF_LONG_DOWN_US, cid, ct, cr, br, fs, ob⟩ := by
    rw [← mzfTR_snd, A]
  have hS2 : mzfRun 80 ⟨MZF_STAGE.LTM_SHORT, hdr, flen, hck, fck, pl, fl,
      MZF_LTM_SHORTS, src, hi, cb, false, false, 128, 0, 0, MZF_LONG_DOWN_US,
      cid, ct, cr, br, fs, ob⟩ =
      ⟨MZF_STAGE.LTM_ENDLONG, hdr, flen, hck, fck, pl, fl, 0, src,
       hi, cb, false, false, 128, 0, 0, MZF_SHORT_DOWN_US, cid, ct, cr, br, fs, ob⟩ := by
    rw [← mzfTR_snd, B]
  rw [show (162 : Nat) = 80 + (80 + 2) from rfl, mzfTR_add, hS1,
    mzfTR_add, hS2, A, B, C]
  simp

/-- Trailer tapemark, full run: 20 long pulses, 20 short pulses, one long
pulse, then the FILE1 stage is entered with the byte writer on the file
source, the remaining count loaded from the header length field and the
file checksum cleared. -/
theorem stm_full (s : MzfState)
    (h1 : s.mzf_stage = MZF_STAGE.STM_LONG) (h2 : s.mzf_half = 0)
    (h3 : s.mzf_tm_left = MZF_STM_LONGS) :
    mzfTR 82 s =
      (List.flatten (List.replicate 20 [MZF_LONG_UP_US, MZF_LONG_DOWN_US]) ++
       List.flatten (List.replicate 20 [MZF_SHORT_UP_US, MZF_SHORT_DOWN_US]) ++
       [MZF_LONG_UP_US, MZF_LONG_DOWN_US],
       { s with
         mzf_stage := MZF_STAGE.FILE1
         mzf_half := 0
         mzf_have_byte := false
         mzf_leader_done := false
         mzf_bit_mask := 128
         mzf_chk_byte_idx := 0
         mzf_tm_left := 0
         mzf_src := BYTE_SRC.FILE
         mzf_file_left := s.mzf_file_len
         mzf_file_cksum := 0
         bytesRead := 128
         currentPeriod := MZF_LONG_DOWN_US }) := by
  obtain ⟨st, hdr, flen, hck, fck, pl, fl, tm, src, hi, cb, hb, ld, bm, ci,
    hf, cp, cid, ct, cr, br, fs, ob⟩ := s
  simp only [] at h1 h2 h3
  subst h1 h2 h3
  have A : mzfTR 40 ⟨MZF_STAGE.STM_LONG, hdr, flen, hck, fck, pl, fl,
      MZF_STM_LONGS, src, hi, cb, hb, ld, bm, ci, 0, cp, cid, ct, cr, br, fs, ob⟩ =
      (List.flatten (List.replicate 20 [MZF_LONG_UP_US, MZF_LONG_DOWN_US]),
       ⟨MZF_STAGE.STM_SHORT, hdr, flen, hck, fck, pl, fl, MZF_STM_SHORTS, src,
        hi, cb, false, false, 128, 0, 0, MZF_LONG_DOWN_US, cid, ct, cr, br, fs, ob⟩) :=
    stm_long_run 20 _ rfl rfl rfl (by omega)
  have B : mzfTR 40 ⟨MZF_STAGE.STM_SHORT, hdr, flen, hck, fck, pl, fl,
      MZF_STM_SHORTS, src, hi, cb, false, false, 128, 0, 0, MZF_LONG_DOWN_US,
      cid, ct, cr, br, fs, ob⟩ =
      (List.flatten (List.replicate 20 [MZF_SHORT_UP_US, MZF_SHORT_DOWN_US]),
       ⟨MZF_STAGE.STM_ENDLONG, hdr, flen, hck, fck, pl, fl, 0, src,
        hi, cb, false, false, 128, 0, 0, MZF_SHORT_DOWN_US, cid, ct, cr, br, fs, ob⟩) :=
    stm_short_run 20 _ rfl rfl rfl (by omega)
  have C : mzfTR 2 ⟨MZF_STAGE.STM_ENDLONG, hdr, flen, hck, fck, pl, fl, 0, src,
      hi, cb, false, false, 128, 0, 0, MZF_SHORT_DOWN_US, cid, ct, cr, br, fs, ob⟩ =
      ([MZF_LONG_UP_US, MZF_LONG_DOWN_US],
       ⟨MZF_STAGE.FILE1, hdr, flen, hck, 0, pl, flen, 0, BYTE_SRC.FILE,
        hi, cb, false, false, 128, 0, 0, MZF_LONG_DOWN_US, cid, ct, cr, 128, fs, ob⟩) :=
    stm_endlong_run _ rfl rfl
  have hS1 : mzfRun 40 ⟨MZF_STAGE.STM_LONG, hdr, flen, hck, fck, pl, fl,
      MZF_STM_LONGS, src, hi, cb, hb, ld, bm, ci, 0, cp, cid, ct, cr, br, fs, ob⟩ =
      ⟨MZF_STAGE.STM_SHORT, hdr, flen, hck, fck, pl, fl, MZF_STM_SHORTS, src,
       hi, cb, false, false, 128, 0, 0, MZF_LONG_DOWN_US, cid, ct, cr, br, fs, ob⟩ := by
    rw [← mzfTR_snd, A]
  have hS2 : mzfRun 40 ⟨MZF_STAGE.STM_SHORT, hdr, flen, hck, fck, pl, fl,
      MZF_STM_SHORTS, src, hi, cb, false, false, 128, 0, 0, MZF_LONG_DOWN_US,
      cid, ct, cr, br, fs, ob⟩ =
      ⟨MZF_STAGE.STM_ENDLONG, hdr, flen, hck, fck, pl, fl, 0, src,
       hi, cb, false, false, 128, 0, 0, MZF_SHORT_DOWN_US, cid, ct, cr, br, fs, ob⟩ := by
    rw [← mzfTR_snd, B]
  rw [show (82 : Nat) = 40 + (40 + 2) from rfl, mzfTR_add, hS1,
    mzfTR_add, hS2, A, B, C]
  simp

/-- `mzf_init` leaves the machine either at LGAP1 (success) or DONE
(failure). -/
theorem mzf_init_stage (ok : Bool) (file : List Nat) (s : MzfState) :
    (mzf_init ok file s).mzf_stage = MZF_STAGE.LGAP1 ∨
    (mzf_init ok file s).mzf_stage = MZF_STAGE.DONE := by
  unfold mzf_init
  dsimp only []
  split
  · right; rfl
  · split
    · right; rfl
    · left; rfl

/-- One tick never enters FILE2 or CHKF2 from outside them. -/
theorem mzf_step_avoid (s : MzfState)
    (h1 : s.mzf_stage ≠ MZF_STAGE.FILE2) (h2 : s.mzf_stage ≠ MZF_STAGE.CHKF2) :
    (mzf_process s).mzf_stage ≠ MZF_STAGE.FILE2 ∧
    (mzf_process s).mzf_stage ≠ MZF_STAGE.CHKF2 := by
  rcases mzf_process_stage_step s with h | h <;> rw [h]
  · exact ⟨h1, h2⟩
  · revert h1 h2
    generalize s.mzf_stage = st
    cases st <;> intro h1 h2 <;> simp [mzfSucc] at h1 h2 ⊢

/-- No run starting outside FILE2/CHKF2 ever reaches them. -/
theorem mzfRun_avoid (n : Nat) : ∀ s : MzfState,
    s.mzf_stage ≠ MZF_STAGE.FILE2 → s.mzf_stage ≠ MZF_STAGE.CHKF2 →
    (mzfRun n s).mzf_stage ≠ MZF_STAGE.FILE2 ∧
    (mzfRun n s).mzf_stage ≠ MZF_STAGE.CHKF2 := by
  induction n with
  | zero => intro s h1 h2; exact ⟨h1, h2⟩
  | succ k ih =>
    intro s h1 h2
    obtain ⟨g1, g2⟩ := mzf_step_avoid s h1 h2
    exact ih (mzf_process s) g1 g2

theorem mzf_demo_44000 : mzfRun 44000 mzfDemoInit = mzfLtmEntry := by
  have h := lgap_run 22000 mzfDemoInit (by decide) (by decide) (by decide)
    (by omega)
  have h2 := congrArg Prod.snd h
  rw [mzfTR_snd] at h2
  exact h2.trans (by decide)

set_option maxHeartbeats 1000000 in
theorem mzf_seg1 : mzfRun 500 mzfLtmEntry = mzfSeg1State := by decide

set_option maxHeartbeats 1000000 in
theorem mzf_seg2 : mzfRun 1000 mzfLtmEntry = mzfSeg2State := by
  rw [show (1000 : Nat) = 500 + 500 from rfl, mzfRun_add, mzf_seg1]
  decide

set_option maxHeartbeats 1000000 in
theorem mzf_seg3 : mzfRun 1500 mzfLtmEntry = mzfSeg3State := by
  rw [show (1500 : Nat) = 1000 + 500 from rfl, mzfRun_add, mzf_seg2]
  decide

set_option maxHeartbeats 1000000 in
theorem mzf_seg4 : mzfRun 2000 mzfLtmEntry = mzfSeg4State := by
  rw [show (2000 : Nat) = 1500 + 500 from rfl, mzfRun_add, mzf_seg3]
  decide

set_option maxHeartbeats 1000000 in
theorem mzf_seg5 : mzfRun 2500 mzfLtmEntry = mzfSeg5State := by
  rw [show (2500 : Nat) = 2000 + 500 from rfl, mzfRun_add, mzf_seg4]
  decide

set_option maxHeartbeats 1000000 in
theorem mzf_seg6 : mzfRun 3000 mzfLtmEntry = mzfSeg6State := by
  rw [show (3000 : Nat) = 2500 + 500 from rfl, mzfRun_add, mzf_seg5]
  decide

set_option maxHeartbeats 1000000 in
theorem mzf_seg7 : mzfRun 3500 mzfLtmEntry = mzfSeg7State := by
  rw [show (3500 : Nat) = 3000 + 500 from rfl, mzfRun_add, mzf_seg6]
  decide

set_option maxHeartbeats 1000000 in
theorem mzf_seg8 : mzfRun 4000 mzfLtmEntry = mzfSeg8State := by
  rw [show (4000 : Nat) = 3500 + 500 from rfl, mzfRun_add, mzf_seg7]
  decide

set_option maxHeartbeats 1000000 in
theorem mzf_seg9 : mzfRun 4500 mzfLtmEntry = mzfSeg9State := by
  rw [show (4500 : Nat) = 4000 + 500 from rfl, mzfRun_add, mzf_seg8]
  decide

set_option maxHeartbeats 1000000 in
theorem mzf_demo_48846 : mzfRun 48846 mzfDemoInit = mzfSgapEntry := by
  rw [show (48846 : Nat) = 44000 + 4846 from rfl, mzfRun_add, mzf_demo_44000,
    show (4846 : Nat) = 4500 + 346 from rfl, mzfRun_add, mzf_seg9]
  decide

theorem mzf_demo_70846 : mzfRun 70846 mzfDemoInit = mzfStmEntry := by
  rw [show (70846 : Nat) = 48846 + 22000 from rfl, mzfRun_add, mzf_demo_48846]
  have h := sgap_run 11000 mzfSgapEntry (by decide) (by decide) (by decide)
    (by omega)
  have h2 := congrArg Prod.snd h
  rw [mzfTR_snd] at h2
  exact h2.trans (by decide)

/-- C1: starting from `mzf_init` with a successfully read header, the MZF
stages execute in exactly the order LGAP1, LTM_LONG, LTM_SHORT, LTM_ENDLONG,
HDR1, CHKH1, HDR2, CHKH2, SGAP, STM_LONG, STM_SHORT, STM_ENDLONG, FILE1,
CHKF1, DONE: every tick either stays in its stage or advances to the
designated successor `mzfSucc` (in which CHKF1 is followed directly by
DONE), the stages FILE2 and CHKF2 are never entered in any run from any
`mzf_init` call, and the canonical demo session exhibits each listed stage
in order at the stated tick counts. -/
theorem mzf_stage_order :
    (∀ s : MzfState,
      (mzf_process s).mzf_stage = s.mzf_stage ∨
      (mzf_process s).mzf_stage = mzfSucc s.mzf_stage) ∧
    (∀ (ok : Bool) (file : List Nat) (s : MzfState) (n : Nat),
      (mzfRun n (mzf_init ok file s)).mzf_stage ≠ MZF_STAGE.FILE2 ∧
      (mzfRun n (mzf_init ok file s)).mzf_stage ≠ MZF_STAGE.CHKF2) ∧
    ((mzfRun 0 mzfDemoInit).mzf_stage = MZF_STAGE.LGAP1 ∧
     (mzfRun 44000 mzfDemoInit).mzf_stage = MZF_STAGE.LTM_LONG ∧
     (mzfRun 44080 mzfDemoInit).mzf_stage = MZF_STAGE.LTM_SHORT ∧
     (mzfRun 44160 mzfDemoInit).mzf_stage = MZF_STAGE.LTM_ENDLONG ∧
     (mzfRun 44162 mzfDemoInit).mzf_stage = MZF_STAGE.HDR1 ∧
     (mzfRun 46467 mzfDemoInit).mzf_stage = MZF_STAGE.CHKH1 ∧
     (mzfRun 46504 mzfDemoInit).mzf_stage = MZF_STAGE.HDR2 ∧
     (mzfRun 48809 mzfDemoInit).mzf_stage = MZF_STAGE.CHKH2 ∧
     (mzfRun 48846 mzfDemoInit).mzf_stage = MZF_STAGE.SGAP ∧
     (mzfRun 70846 mzfDemoInit).mzf_stage = MZF_STAGE.STM_LONG ∧
     (mzfRun 70886 mzfDemoInit).mzf_stage = MZF_STAGE.STM_SHORT ∧
     (mzfRun 70926 mzfDemoInit).mzf_stage = MZF_STAGE.STM_ENDLONG ∧
     (mzfRun 70928 mzfDemoInit).mzf_stage = MZF_STAGE.FILE1 ∧
     (mzfRun 70929 mzfDemoInit).mzf_stage = MZF_STAGE.CHKF1 ∧
     (mzfRun 70966 mzfDemoInit).mzf_stage = MZF_STAGE.DONE) := by
  refine ⟨mzf_process_stage_step, ?_, ?_⟩
  · intro ok file s n
    have hin := mzf_init_stage ok file s
    have hne : (mzf_init ok file s).mzf_stage ≠ MZF_STAGE.FILE2 ∧
        (mzf_init ok file s).mzf_stage ≠ MZF_STAGE.CHKF2 := by
      rcases hin with h | h <;> rw [h] <;> exact ⟨by decide, by decide⟩
    exact mzfRun_avoid n _ hne.1 hne.2
  · refine ⟨by decide, ?_, ?_, ?_, ?_, ?_, ?_, ?_, ?_, ?_, ?_, ?_, ?_, ?_, ?_⟩
    · rw [mzf_demo_44000]; decide
    · rw [show (44080 : Nat) = 44000 + 80 from rfl, mzfRun_add, mzf_demo_44000]
      decide
    · rw [show (44160 : Nat) = 44000 + 160 from rfl, mzfRun_add, mzf_demo_44000]
      decide
    · rw [show (44162 : Nat) = 44000 + 162 from rfl, mzfRun_add, mzf_demo_44000]
      decide
    · rw [show (46467 : Nat) = 44000 + 2467 from rfl, mzfRun_add, mzf_demo_44000,
        show (2467 : Nat) = 2000 + 467 from rfl, mzfRun_add, mzf_seg4]
      decide
    · rw [show (46504 : Nat) = 44000 + 2504 from rfl, mzfRun_add, mzf_demo_44000,
        show (2504 : Nat) = 2500 + 4 from rfl, mzfRun_add, mzf_seg5]
      decide
    · rw [show (48809 : Nat) = 44000 + 4809 from rfl, mzfRun_add, mzf_demo_44000,
        show (4809 : Nat) = 4500 + 309 from rfl, mzfRun_add, mzf_seg9]
      decide
    · rw [mzf_demo_48846]; decide
    · rw [mzf_demo_70846]; decide
    · rw [show (70886 : Nat) = 70846 + 40 from rfl, mzfRun_add, mzf_demo_70846]
      decide
    · rw [show (70926 : Nat) = 70846 + 80 from rfl, mzfRun_add, mzf_demo_70846]
      decide
    · rw [show (70928 : Nat) = 70846 + 82 from rfl, mzfRun_add, mzf_demo_70846]
      decide
    · rw [show (70929 : Nat) = 70846 + 83 from rfl, mzfRun_add, mzf_demo_70846]
      decide
    · rw [show (70966 : Nat) = 70846 + 120 from rfl, mzfRun_add, mzf_demo_70846]
      decide

/-- C1 witness: the second-file-copy stages are indeed avoided at a
concrete run point of a concrete session. -/
theorem mzf_stage_order_witness :
    (mzfRun 70966 (mzf_init true mzfZeroFile mzfStart0)).mzf_stage ≠
      MZF_STAGE.FILE2 :=
  (mzf_stage_order.2.1 true mzfZeroFile mzfStart0 70966).1

/-- C6: the MZF gap and tapemark stages emit exactly the fixed pulse counts:
the long gap 22000 short pulses (44000 half-periods), the leader tapemark
40 long then 40 short then 1 long pulse, the short gap 11000 short pulses,
and the trailer tapemark 20 long then 20 short then 1 long pulse, each
before advancing to its next stage. -/
theorem mzf_gap_tapemark_counts :
    (∀ s : MzfState, s.mzf_stage = MZF_STAGE.LGAP1 → s.mzf_half = 0 →
      s.mzf_pulses_left = MZF_LGAP_PULSES →
      mzfTR 44000 s =
        (List.flatten (List.replicate MZF_LGAP_PULSES
          [MZF_SHORT_UP_US, MZF_SHORT_DOWN_US]),
         { s with
           mzf_stage := MZF_STAGE.LTM_LONG
           mzf_half := 0
           mzf_have_byte := false
           mzf_leader_done := false
           mzf_bit_mask := 128
           mzf_chk_byte_idx := 0
           mzf_pulses_left := 0
           mzf_tm_left := MZF_LTM_LONGS
           currentPeriod := MZF_SHORT_DOWN_US })) ∧
    (∀ s : MzfState, s.mzf_stage = MZF_STAGE.LTM_LONG → s.mzf_half = 0 →
      s.mzf_tm_left = MZF_LTM_LONGS →
      mzfTR 162 s =
        (List.flatten (List.replicate MZF_LTM_LONGS
           [MZF_LONG_UP_US, MZF_LONG_DOWN_US]) ++
         List.flatten (List.replicate MZF_LTM_SHORTS
           [MZF_SHORT_UP_US, MZF_SHORT_DOWN_US]) ++
         [MZF_LONG_UP_US, MZF_LONG_DOWN_US],
         { s with
           mzf_stage := MZF_STAGE.HDR1
           mzf_half := 0
           mzf_have_byte := false
           mzf_leader_done := false
           mzf_bit_mask := 128
           mzf_chk_byte_idx := 0
           mzf_tm_left := 0
           mzf_src := BYTE_SRC.HDR
           mzf_hdr_idx := 0
           currentPeriod := MZF_LONG_DOWN_US })) ∧
    (∀ s : MzfState, s.mzf_stage = MZF_STAGE.SGAP → s.mzf_half = 0 →
      s.mzf_pulses_left = MZF_SGAP_PULSES →
      mzfTR 22000 s =
        (List.flatten (List.replicate MZF_SGAP_PULSES
          [MZF_SHORT_UP_US, MZF_SHORT_DOWN_US]),
         { s with
           mzf_stage := MZF_STAGE.STM_LONG
           mzf_half := 0
           mzf_have_byte := false
           mzf_leader_done := false
           mzf_bit_mask := 128
           mzf_chk_byte_idx := 0
           mzf_pulses_left := 0
           mzf_tm_left := MZF_STM_LONGS
           currentPeriod := MZF_SHORT_DOWN_US })) ∧
    (∀ s : MzfState, s.mzf_stage = MZF_STAGE.STM_LONG → s.mzf_half = 0 →
      s.mzf_tm_left = MZF_STM_LONGS →
      mzfTR 82 s =
        (List.flatten (List.replicate MZF_STM_LONGS
           [MZF_LONG_UP_US, MZF_LONG_DOWN_US]) ++
         List.flatten (List.replicate MZF_STM_SHORTS
           [MZF_SHORT_UP_US, MZF_SHORT_DOWN_US]) ++
         [MZF_LONG_UP_US, MZF_LONG_DOWN_US],
         { s with
           mzf_stage := MZF_STAGE.FILE1
           mzf_half := 0
           mzf_have_byte := false
           mzf_leader_done := false
           mzf_bit_mask := 128
           mzf_chk_byte_idx := 0
           mzf_tm_left := 0
           mzf_src := BYTE_SRC.FILE
           mzf_file_left := s.mzf_file_len
           mzf_file_cksum := 0
           bytesRead := 128
           currentPeriod := MZF_LONG_DOWN_US })) :=
  ⟨fun s h1 h2 h3 => lgap_run 22000 s h1 h2 h3 (by omega),
   fun s h1 h2 h3 => ltm_full s h1 h2 h3,
   fun s h1 h2 h3 => sgap_run 11000 s h1 h2 h3 (by omega),
   fun s h1 h2 h3 => stm_full s h1 h2 h3⟩

/-- C6 witness: the four stage runs applied at concrete entry states. -/
theorem mzf_gap_tapemark_counts_witness :
    ((mzfProbe MZF_STAGE.LGAP1 MZF_LGAP_PULSES 0).mzf_pulses_left =
        MZF_LGAP_PULSES ∧
     (mzfTR 44000 (mzfProbe MZF_STAGE.LGAP1 MZF_LGAP_PULSES 0)).2.mzf_stage =
        MZF_STAGE.LTM_LONG) ∧
    ((mzfProbe MZF_STAGE.LTM_LONG 0 MZF_LTM_LONGS).mzf_tm_left =
        MZF_LTM_LONGS ∧
     (mzfTR 162 (mzfProbe MZF_STAGE.LTM_LONG 0 MZF_LTM_LONGS)).2.mzf_stage =
        MZF_STAGE.HDR1) ∧
    ((mzfProbe MZF_STAGE.SGAP MZF_SGAP_PULSES 0).mzf_pulses_left =
        MZF_SGAP_PULSES ∧
     (mzfTR 22000 (mzfProbe MZF_STAGE.SGAP MZF_SGAP_PULSES 0)).2.mzf_stage =
        MZF_STAGE.STM_LONG) ∧
    ((mzfProbe MZF_STAGE.STM_LONG 0 MZF_STM_LONGS).mzf_tm_left =
        MZF_STM_LONGS ∧
     (mzfTR 82 (mzfProbe MZF_STAGE.STM_LONG 0 MZF_STM_LONGS)).2.mzf_stage =
        MZF_STAGE.FILE1) := by
  refine ⟨⟨rfl, ?_⟩, ⟨rfl, ?_⟩, ⟨rfl, ?_⟩, ⟨rfl, ?_⟩⟩
  · rw [mzf_gap_tapemark_counts.1 _ rfl rfl rfl]
  · rw [mzf_gap_tapemark_counts.2.1 _ rfl rfl rfl]
  · rw [mzf_gap_tapemark_counts.2.2.1 _ rfl rfl rfl]
  · rw [mzf_gap_tapemark_counts.2.2.2 _ rfl rfl rfl]

theorem popcount8_correct : ∀ v : Nat, v < 256 → popcount8 v = popcountSpec v := by
  decide

theorem range_map_getD (l : List Nat) : ∀ n : Nat, l.length = n →
    (List.range n).map (fun i => l.getD i 0) = l := by
  induction l with
  | nil => intro n h; subst h; rfl
  | cons x t ih =>
    intro n h
    subst h
    rw [show (x :: t).length = t.length + 1 from rfl, List.range_succ_eq_map]
    simp only [List.map_cons, List.map_map]
    have h2 : List.map ((fun i => (x :: t).getD i 0) ∘ Nat.succ)
        (List.range t.length) = List.map (fun i => t.getD i 0)
        (List.range t.length) := rfl
    rw [h2, ih t.length rfl]
    rfl

theorem foldl_cksum (l : List Nat) : ∀ acc : Nat, acc < 65536 →
    l.foldl mzf_cksum_add acc = (acc + (l.map popcount8).sum) % 65536 := by
  induction l with
  | nil =>
    intro acc h
    simp [Nat.mod_eq_of_lt h]
  | cons x t ih =>
    intro acc h
    rw [List.foldl_cons]
    rw [show mzf_cksum_add acc x = (acc + popcount8 x) % 65536 from rfl]
    rw [ih _ (Nat.mod_lt _ (by omega))]
    rw [Nat.mod_add_mod]
    simp [Nat.add_assoc]

theorem range_map_getD_append (l1 l2 : List Nat) : ∀ n : Nat, l1.length = n →
    (List.range n).map (fun i => (l1 ++ l2).getD i 0) = l1 := by
  induction l1 with
  | nil => intro n h; subst h; rfl
  | cons x t ih =>
    intro n h
    subst h
    rw [show (x :: t).length = t.length + 1 from rfl, List.range_succ_eq_map]
    simp only [List.map_cons, List.map_map]
    have h2 : List.map ((fun i => (x :: t ++ l2).getD i 0) ∘ Nat.succ)
        (List.range t.length) = List.map (fun i => (t ++ l2).getD i 0)
        (List.range t.length) := rfl
    rw [h2, ih t.length rfl]
    rfl

theorem mzf_init_cksum (file : List Nat) (s : MzfState)
    (hlen : 128 ≤ file.length) (hb : ∀ b ∈ file.take 128, b < 256) :
    (mzf_init true file s).mzf_hdr_cksum =
      ((file.take 128).map popcountSpec).sum % 65536 := by
  have hr : min 128 file.length = 128 := by omega
  have htake : (file.take 128).length = 128 := by
    rw [List.length_take]; omega
  have hgoal : (mzf_init true file s).mzf_hdr_cksum =
      (List.range 128).foldl
        (fun acc i =>
          mzf_cksum_add acc ((file.take 128 ++ s.mzf_hdr.drop 128).getD i 0))
        0 := by
    simp [mzf_init, hr, mzf_next_stage]
  rw [hgoal]
  rw [← List.foldl_map (fun i => (file.take 128 ++ s.mzf_hdr.drop 128).getD i 0)
    mzf_cksum_add]
  rw [range_map_getD_append _ _ _ htake]
  rw [foldl_cksum _ 0 (by omega)]
  rw [show (file.take 128).map popcount8 = (file.take 128).map popcountSpec from
    List.map_congr_left (fun b hbm => popcount8_correct b (hb b hbm))]
  simp

/-- In a checksum stage the two bytes supplied by the byte cursor are the
high byte then the low byte of the active 16-bit checksum (header checksum
in the header-checksum stages, file checksum otherwise). -/
theorem mzf_chk_bytes (s : MzfState) (h1 : s.mzf_src = BYTE_SRC.CHK)
    (h2 : s.mzf_chk_byte_idx = 0) :
    (mzf_load_next_byte s).1 = true ∧
    ((mzf_load_next_byte s).2).mzf_cur_byte =
      (if s.mzf_stage = MZF_STAGE.CHKH1 ∨ s.mzf_stage = MZF_STAGE.CHKH2
       then s.mzf_hdr_cksum else s.mzf_file_cksum) >>> 8 ∧
    (mzf_load_next_byte ((mzf_load_next_byte s).2)).1 = true ∧
    ((mzf_load_next_byte ((mzf_load_next_byte s).2)).2).mzf_cur_byte =
      (if s.mzf_stage = MZF_STAGE.CHKH1 ∨ s.mzf_stage = MZF_STAGE.CHKH2
       then s.mzf_hdr_cksum else s.mzf_file_cksum) &&& 0xFF := by
  obtain ⟨st, hdr, flen, hck, fck, pl, fl, tm, src, hi, cb, hb, ld, bm, ci,
    hf, cp, cid, ct, cr, br, fs, ob⟩ := s
  simp only [] at h1 h2
  subst h1 h2
  exact ⟨rfl, rfl, rfl, rfl⟩

/-- C2: the MZF header checksum computed by `mzf_init` equals the sum of the
population counts of the 128 header bytes reduced modulo 65536 (`popcount8`
being exact on every byte value), and in a checksum stage the two bytes
emitted are, in order, the high byte `checksum >>> 8` then the low byte
`checksum &&& 0xFF`. -/
theorem mzf_checksum_spec :
    (∀ v : Nat, v < 256 → popcount8 v = popcountSpec v) ∧
    (∀ (file : List Nat) (s : MzfState), 128 ≤ file.length →
      (∀ b ∈ file.take 128, b < 256) →
      (mzf_init true file s).mzf_hdr_cksum =
        ((file.take 128).map popcountSpec).sum % 65536) ∧
    (∀ s : MzfState, s.mzf_src = BYTE_SRC.CHK → s.mzf_chk_byte_idx = 0 →
      (mzf_load_next_byte s).1 = true ∧
      ((mzf_load_next_byte s).2).mzf_cur_byte =
        (if s.mzf_stage = MZF_STAGE.CHKH1 ∨ s.mzf_stage = MZF_STAGE.CHKH2
         then s.mzf_hdr_cksum else s.mzf_file_cksum) >>> 8 ∧
      (mzf_load_next_byte ((mzf_load_next_byte s).2)).1 = true ∧
      ((mzf_load_next_byte ((mzf_load_next_byte s).2)).2).mzf_cur_byte =
        (if s.mzf_stage = MZF_STAGE.CHKH1 ∨ s.mzf_stage = MZF_STAGE.CHKH2
         then s.mzf_hdr_cksum else s.mzf_file_cksum) &&& 0xFF) :=
  ⟨popcount8_correct, mzf_init_cksum, mzf_chk_bytes⟩

/-- C2 witness: concrete instances — `popcount8 0xB7 = 6`, the header
checksum of the file `0,1,...,129`, and the two checksum bytes of 0xABCD
emitted as 0xAB then 0xCD. -/
theorem mzf_checksum_spec_witness :
    (183 < 256 ∧ popcount8 183 = popcountSpec 183) ∧
    (128 ≤ (List.range 130).length ∧
     (mzf_init true (List.range 130) mzfStart0).mzf_hdr_cksum =
       (((List.range 130).take 128).map popcountSpec).sum % 65536) ∧
    (mzfChkProbe.mzf_src = BYTE_SRC.CHK ∧
     ((mzf_load_next_byte mzfChkProbe).2).mzf_cur_byte = 171 ∧
     ((mzf_load_next_byte ((mzf_load_next_byte mzfChkProbe).2)).2).mzf_cur_byte
       = 205) := by
  refine ⟨⟨by decide, mzf_checksum_spec.1 183 (by decide)⟩,
    ⟨by decide, mzf_checksum_spec.2.1 (List.range 130) mzfStart0 (by decide)
      (fun b hbm => ?_)⟩, rfl, ?_, ?_⟩
  · have : b ∈ List.range 130 := List.mem_of_mem_take hbm
    have := List.mem_range.mp this
    omega
  · have h := mzf_checksum_spec.2.2 mzfChkProbe rfl rfl
    rw [h.2.1]
    decide
  · have h := mzf_checksum_spec.2.2 mzfChkProbe rfl rfl
    rw [h.2.2.2]
    decide

/-- C4: for every byte value, the MZF byte-emission sub-protocol emits one
long leader pulse and then exactly 8 data pulses over 18 ticks, consuming
the byte, and decoding those 8 pulses (long = 1, short = 0, MSB first)
reconstructs the byte. -/
theorem mzf_byte_roundtrip : ∀ b : Nat, b < 256 →
    ((mzfTR 18 (mzfByteProbe b)).1.take 2 =
        [MZF_LONG_UP_US, MZF_LONG_DOWN_US] ∧
     (mzfTR 18 (mzfByteProbe b)).1.length = 18 ∧
     pulseDecode (mzfTR 18 (mzfByteProbe b)).1 = b ∧
     ((mzfTR 18 (mzfByteProbe b)).2).mzf_have_byte = false ∧
     ((mzfTR 18 (mzfByteProbe b)).2).mzf_stage = MZF_STAGE.HDR1) := by
  decide

/-- C4 witness: the round-trip at byte 0xA5. -/
theorem mzf_byte_roundtrip_witness :
    165 < 256 ∧ pulseDecode (mzfTR 18 (mzfByteProbe 165)).1 = 165 :=
  ⟨by decide, (mzf_byte_roundtrip 165 (by decide)).2.2.1⟩

/-- C8: if the initial seek fails, or the 128-byte header read comes up
short, `mzf_init` aborts straight to the end-of-file hand-off: `currentID`
becomes IDEOF, the stage machine stays in DONE, and no playback state
(stage counters, declared length, checksum, stream position, task) is
initialised. -/
theorem mzf_init_failure :
    (∀ (file : List Nat) (s : MzfState),
      (mzf_init false file s).currentID = BLOCKID.IDEOF ∧
      (mzf_init false file s).mzf_stage = MZF_STAGE.DONE ∧
      (mzf_init false file s).currentTask = s.currentTask ∧
      (mzf_init false file s).mzf_pulses_left = s.mzf_pulses_left ∧
      (mzf_init false file s).mzf_file_len = s.mzf_file_len ∧
      (mzf_init false file s).mzf_hdr_cksum = s.mzf_hdr_cksum ∧
      (mzf_init false file s).mzf_hdr = s.mzf_hdr ∧
      (mzf_init false file s).fileStream = s.fileStream ∧
      (mzf_init false file s).bytesRead = s.bytesRead) ∧
    (∀ (file : List Nat) (s : MzfState), file.length < 128 →
      (mzf_init true file s).currentID = BLOCKID.IDEOF ∧
      (mzf_init true file s).mzf_stage = MZF_STAGE.DONE ∧
      (mzf_init true file s).currentTask = s.currentTask ∧
      (mzf_init true file s).mzf_pulses_left = s.mzf_pulses_left ∧
      (mzf_init true file s).mzf_file_len = s.mzf_file_len ∧
      (mzf_init true file s).mzf_hdr_cksum = s.mzf_hdr_cksum ∧
      (mzf_init true file s).fileStream = s.fileStream ∧
      (mzf_init true file s).bytesRead = s.bytesRead) := by
  constructor
  · intro file s
    exact ⟨rfl, rfl, rfl, rfl, rfl, rfl, rfl, rfl, rfl⟩
  · intro file s h
    have hr : ¬(min 128 file.length = 128) := by omega
    simp [mzf_init, hr]

/-- C8 witness: an empty file is a short header read. -/
theorem mzf_init_failure_witness :
    ([] : List Nat).length < 128 ∧
    (mzf_init true [] mzfStart0).currentID = BLOCKID.IDEOF ∧
    (mzf_init false [] mzfStart0).currentID = BLOCKID.IDEOF :=
  ⟨by decide, (mzf_init_failure.2 [] mzfStart0 (by decide)).1,
   (mzf_init_failure.1 [] mzfStart0).1⟩

/-- C9: if the file body is exhausted while `mzf_file_left` is still
positive (ReadByte fails), the FILE1 stage completes exactly as in the
normal case (`mzf_file_left = 0`): the tick emits period 0, the machine
advances to CHKF1 with the byte writer on the checksum source, and the
session hand-off state is untouched. -/
theorem mzf_file_exhaustion :
    (∀ s : MzfState, s.mzf_stage = MZF_STAGE.FILE1 → s.mzf_have_byte = false →
      s.mzf_src = BYTE_SRC.FILE → s.fileStream = [] → 0 < s.mzf_file_left →
      (mzf_process s).mzf_stage = MZF_STAGE.CHKF1 ∧
      (mzf_process s).currentPeriod = 0 ∧
      (mzf_process s).currentID = s.currentID ∧
      (mzf_process s).currentTask = s.currentTask ∧
      (mzf_process s).mzf_src = BYTE_SRC.CHK) ∧
    (∀ s : MzfState, s.mzf_stage = MZF_STAGE.FILE1 → s.mzf_have_byte = false →
      s.mzf_src = BYTE_SRC.FILE → s.mzf_file_left = 0 →
      (mzf_process s).mzf_stage = MZF_STAGE.CHKF1 ∧
      (mzf_process s).currentPeriod = 0 ∧
      (mzf_process s).currentID = s.currentID ∧
      (mzf_process s).currentTask = s.currentTask ∧
      (mzf_process s).mzf_src = BYTE_SRC.CHK) := by
  constructor
  · intro s h1 h2 h3 h4 h5
    obtain ⟨st, hdr, flen, hck, fck, pl, fl, tm, src, hi, cb, hb, ld, bm, ci,
      hf, cp, cid, ct, cr, br, fs, ob⟩ := s
    simp only [] at h1 h2 h3 h4 h5
    subst h1 h2 h3 h4
    have h6 : ¬(fl = 0) := by omega
    simp [mzf_process, mzf_process_bytes, mzf_load_next_byte, ReadByte, h6,
      mzf_next_stage, mzf_reset_byte_writer_for_src]
  · intro s h1 h2 h3 h4
    obtain ⟨st, hdr, flen, hck, fck, pl, fl, tm, src, hi, cb, hb, ld, bm, ci,
      hf, cp, cid, ct, cr, br, fs, ob⟩ := s
    simp only [] at h1 h2 h3 h4
    subst h1 h2 h3 h4
    exact ⟨rfl, rfl, rfl, rfl, rfl⟩

/-- C9 witness: the exhausted-stream FILE1 tick at a concrete state. -/
theorem mzf_file_exhaustion_witness :
    0 < mzfExhaustProbe.mzf_file_left ∧
    (mzf_process mzfExhaustProbe).mzf_stage = MZF_STAGE.CHKF1 ∧
    (mzf_process mzfExhaustProbe).currentPeriod = 0 :=
  ⟨by decide,
   (mzf_file_exhaustion.1 mzfExhaustProbe rfl rfl rfl rfl (by decide)).1,
   (mzf_file_exhaustion.1 mzfExhaustProbe rfl rfl rfl rfl (by decide)).2.1⟩

/-- C10: the half-wave cursor is 0 at every stage entry — a tick that
changes stage always leaves `mzf_half = 0` (so no pulse straddles a stage
boundary), `mzf_init` leaves `mzf_half = 0`, and from `mzf_half = 0` the
next emitted half-period is always the up half of its pulse. -/
theorem mzf_half_stage_entry :
    (∀ s : MzfState,
      (mzf_process s).mzf_stage = s.mzf_stage ∨ (mzf_process s).mzf_half = 0) ∧
    (∀ (ok : Bool) (file : List Nat) (s : MzfState),
      (mzf_init ok file s).mzf_half = 0) ∧
    (∀ (s : MzfState) (g : Bool), s.mzf_half = 0 →
      (mzf_emit_pulse g s).1 = false ∧
      (mzf_emit_pulse g s).2.currentPeriod =
        (if g then MZF_LONG_UP_US else MZF_SHORT_UP_US) ∧
      (mzf_emit_pulse g s).2.mzf_half = 1) := by
  refine ⟨?_, ?_, ?_⟩
  · intro s
    obtain ⟨st, hdr, flen, hck, fck, pl, fl, tm, src, hi, cb, hb, ld, bm, ci,
      hf, cp, cid, ct, cr, br, fs, ob⟩ := s
    cases st <;> cases hf <;>
      simp [mzf_process, mzf_emit_pulse, mzf_next_stage,
        mzf_process_bytes_stage] <;>
      split <;>
      simp [mzf_next_stage, mzf_process_bytes_stage]
  · intro ok file s
    unfold mzf_init
    dsimp only []
    split
    · rfl
    · split
      · rfl
      · rfl
  · intro s g h
    simp [mzf_emit_pulse, h]

/-- C10 witness: a transition tick (the last LTM_ENDLONG half) lands with
the half cursor reset, and an up half follows from a reset cursor. -/
theorem mzf_half_stage_entry_witness :
    (mzf_init true mzfZeroFile mzfStart0).mzf_half = 0 ∧
    (mzfLtmEntry.mzf_half = 0 ∧
     (mzf_emit_pulse true mzfLtmEntry).2.currentPeriod =
       (if true then MZF_LONG_UP_US else MZF_SHORT_UP_US)) :=
  ⟨mzf_half_stage_entry.2.1 true mzfZeroFile mzfStart0,
   rfl, (mzf_half_stage_entry.2.2 mzfLtmEntry true rfl).2.1⟩

/-- C3: every transmitted CAQ byte produces exactly 44 half-periods — 4
space half-periods for the start bit, 4 half-periods per data bit (mark for
1, space for 0, MSB first), and 8 mark half-periods for the two stop bits —
after which the encoder is back at the byte-fetch posture. -/
theorem caq_byte_frame : ∀ b : Nat, b < 256 →
    ((caqTR 44 (caqByteProbe b)).1 =
      List.replicate 4 CAQ_SPACE_HALF_US ++
      List.flatten ((List.range 8).map (fun i =>
        List.replicate 4
          (if (b >>> (7 - i)) &&& 1 = 1 then CAQ_MARK_HALF_US
           else CAQ_SPACE_HALF_US))) ++
      List.replicate 8 CAQ_MARK_HALF_US ∧
     ((caqTR 44 (caqByteProbe b)).2).caq_stage = CAQ_STAGE.START_BIT ∧
     ((caqTR 44 (caqByteProbe b)).2).caq_have_byte = false ∧
     ((caqTR 44 (caqByteProbe b)).2).caq_halves_left = 0) := by
  decide

/-- C3 witness: the 44-half-period frame of byte 0x5A. -/
theorem caq_byte_frame_witness :
    90 < 256 ∧ ((caqTR 44 (caqByteProbe 90)).1).length = 44 :=
  ⟨by decide, by rw [(caq_byte_frame 90 (by decide)).1]; decide⟩

/-- C5: `caq_init` forces BAUDRATE to 600 saving the previous value, the
override is idempotent (a second `caq_init` does not overwrite the saved
value), and reaching DONE restores exactly the saved value; in particular
a complete session (init on an exhausted stream, then the tick that lands
in DONE) restores the original rate, also after re-entrant init. -/
theorem caq_baud_roundtrip :
    (∀ s : CaqState, s.caq_baudrate_overridden = false →
      (caq_init s).BAUDRATE = 600 ∧
      (caq_init s).caq_saved_baudrate = s.BAUDRATE ∧
      (caq_init s).caq_baudrate_overridden = true ∧
      (caq_init (caq_init s)).caq_saved_baudrate = s.BAUDRATE ∧
      (caq_init (caq_init s)).BAUDRATE = 600) ∧
    (∀ s : CaqState, s.caq_stage = CAQ_STAGE.DONE →
      s.caq_baudrate_overridden = true → s.caq_halves_left = 0 →
      s.caq_have_byte = true →
      (caq_process s).BAUDRATE = s.caq_saved_baudrate ∧
      (caq_process s).caq_baudrate_overridden = false) ∧
    (∀ s : CaqState, s.caq_baudrate_overridden = false → s.fileStream = [] →
      (caq_process (caq_init s)).BAUDRATE = s.BAUDRATE ∧
      (caq_process (caq_init (caq_init s))).BAUDRATE = s.BAUDRATE) := by
  refine ⟨?_, ?_, ?_⟩
  · intro s h
    obtain ⟨stg, sv, ov, cb, hb, bi, hl, hp, bd, cp, cid, ct, cr, br, fs, ob⟩ := s
    simp only [] at h
    subst h
    exact ⟨rfl, rfl, rfl, rfl, rfl⟩
  · intro s h1 h2 h3 h4
    obtain ⟨stg, sv, ov, cb, hb, bi, hl, hp, bd, cp, cid, ct, cr, br, fs, ob⟩ := s
    simp only [] at h1 h2 h3 h4
    subst h1 h2 h3 h4
    exact ⟨rfl, rfl⟩
  · intro s h1 h2
    obtain ⟨stg, sv, ov, cb, hb, bi, hl, hp, bd, cp, cid, ct, cr, br, fs, ob⟩ := s
    simp only [] at h1 h2
    subst h1 h2
    exact ⟨rfl, rfl⟩

/-- C5 witness: round-trip of a configured rate of 1200 through a complete
CAQ session, including re-entrant initialisation. -/
theorem caq_baud_roundtrip_witness :
    (caqBaudProbe.caq_baudrate_overridden = false ∧
     (caq_init caqBaudProbe).BAUDRATE = 600 ∧
     (caq_process (caq_init caqBaudProbe)).BAUDRATE = 1200 ∧
     (caq_process (caq_init (caq_init caqBaudProbe))).BAUDRATE = 1200) := by
  refine ⟨rfl, (caq_baud_roundtrip.1 caqBaudProbe rfl).1, ?_, ?_⟩
  · exact (caq_baud_roundtrip.2.2 caqBaudProbe rfl rfl).1
  · exact (caq_baud_roundtrip.2.2 caqBaudProbe rfl rfl).2

/-- `mzf_emit_pulse` always emits one of the four MZF period constants. -/
theorem mzf_emit_pulse_period (g : Bool) (s : MzfState) :
    (mzf_emit_pulse g s).2.currentPeriod = MZF_LONG_UP_US ∨
    (mzf_emit_pulse g s).2.currentPeriod = MZF_LONG_DOWN_US ∨
    (mzf_emit_pulse g s).2.currentPeriod = MZF_SHORT_UP_US ∨
    (mzf_emit_pulse g s).2.currentPeriod = MZF_SHORT_DOWN_US := by
  unfold mzf_emit_pulse
  split <;> cases g <;> simp

/-- `mzf_process_bytes` emits zero (stage exhausted) or one of the four
MZF period constants. -/
theorem mzf_process_bytes_period (s : MzfState) :
    (mzf_process_bytes s).currentPeriod = 0 ∨
    (mzf_process_bytes s).currentPeriod = MZF_LONG_UP_US ∨
    (mzf_process_bytes s).currentPeriod = MZF_LONG_DOWN_US ∨
    (mzf_process_bytes s).currentPeriod = MZF_SHORT_UP_US ∨
    (mzf_process_bytes s).currentPeriod = MZF_SHORT_DOWN_US := by
  unfold mzf_process_bytes
  dsimp only []
  split
  · rcases hload : mzf_load_next_byte s with ⟨b, s'⟩
    cases b <;> dsimp only []
    · left; rfl
    · simp only [Bool.not_false, if_true]
      rcases hemit : mzf_emit_pulse true
        { s' with mzf_leader_done := false, mzf_bit_mask := 128 } with ⟨b1, t1⟩
      have hp := mzf_emit_pulse_period true
        { s' with mzf_leader_done := false, mzf_bit_mask := 128 }
      rw [hemit] at hp
      dsimp only [] at hp
      cases b1 <;> dsimp only [] <;>
        rcases hp with h | h | h | h <;> simp [h]
  · split
    · rcases hemit : mzf_emit_pulse true s with ⟨b1, t1⟩
      have hp := mzf_emit_pulse_period true s
      rw [hemit] at hp
      dsimp only [] at hp
      cases b1 <;> dsimp only [] <;>
        rcases hp with h | h | h | h <;> simp [h]
    · rcases hemit : mzf_emit_pulse
        ((s.mzf_cur_byte &&& s.mzf_bit_mask) ≠ 0) s with ⟨b1, t1⟩
      have hp := mzf_emit_pulse_period
        ((s.mzf_cur_byte &&& s.mzf_bit_mask) ≠ 0) s
      rw [hemit] at hp
      dsimp only [] at hp
      cases b1 <;> dsimp only []
      · rcases hp with h | h | h | h <;> simp [h]
      · split <;> rcases hp with h | h | h | h <;> simp [h]

/-- Every `mzf_process` tick hands the caller zero or one of the four MZF
period constants, from any state whatsoever. -/
theorem mzf_process_period (s : MzfState) :
    (mzf_process s).currentPeriod = 0 ∨
    (mzf_process s).currentPeriod = MZF_LONG_UP_US ∨
    (mzf_process s).currentPeriod = MZF_LONG_DOWN_US ∨
    (mzf_process s).currentPeriod = MZF_SHORT_UP_US ∨
    (mzf_process s).currentPeriod = MZF_SHORT_DOWN_US := by
  obtain ⟨st, hdr, flen, hck, fck, pl, fl, tm, src, hi, cb, hb, ld, bm, ci,
    hf, cp, cid, ct, cr, br, fs, ob⟩ := s
  cases st <;>
    first
    | (cases hf <;>
        simp [mzf_process, mzf_emit_pulse, mzf_next_stage,
          mzf_reset_byte_writer_for_src] <;>
        split <;> simp [mzf_next_stage, mzf_reset_byte_writer_for_src])
    | (unfold mzf_process
       dsimp only []
       split
       · rename_i h
         simp [mzf_next_stage, mzf_reset_byte_writer_for_src, h]
       · exact mzf_process_bytes_period _)

theorem caq_init_inv (s : CaqState) : caqInv (caq_init s) := by
  obtain ⟨stg, sv, ov, cb, hb, bi, hl, hp, bd, cp, cid, ct, cr, br, fs, ob⟩ := s
  unfold caq_init caqInv
  dsimp only []
  split <;> simp

theorem caq_step_inv (s : CaqState) (h : caqInv s) :
    caqInv (caq_process s) ∧
    ((caq_process s).currentPeriod = 0 ∨
     (caq_process s).currentPeriod = CAQ_MARK_HALF_US ∨
     (caq_process s).currentPeriod = CAQ_SPACE_HALF_US) := by
  obtain ⟨stg, sv, ov, cb, hb, bi, hl, hp, bd, cp, cid, ct, cr, br, fs, ob⟩ := s
  unfold caqInv at h
  simp only [] at h
  rcases h with h | h <;> subst h <;>
    cases hl <;> cases hb <;> cases ov <;> cases fs <;> cases stg <;>
      (simp [caq_process, caq_get_next_byte, caq_begin_bit, caqInv]
       repeat' (first | (split <;> simp_all) | simp_all))

theorem caqRun_inv (n : Nat) : ∀ s : CaqState, caqInv s →
    caqInv (caqRun n s) := by
  induction n with
  | zero => intro s h; exact h
  | succ k ih => intro s h; exact ih (caq_process s) (caq_step_inv s h).1

theorem caqRun_add (m n : Nat) (s : CaqState) :
    caqRun (m + n) s = caqRun n (caqRun m s) := by
  induction m generalizing s with
  | zero => simp [caqRun]
  | succ k ih =>
    have h : k + 1 + n = (k + n) + 1 := by omega
    rw [h]
    show caqRun (k + n) (caq_process s) = _
    rw [ih]
    rfl

/-- C7: every period value an encoder hands to the caller is zero (the
in-band re-invoke signal) or one of the fixed protocol constants: for MZF
one of 464, 494, 240, 264 microseconds, on every tick from any state; for
CAQ one of 272 or 544 microseconds, on every tick of every session started
by `caq_init`. -/
theorem period_constants :
    (∀ s : MzfState,
      (mzf_process s).currentPeriod = 0 ∨
      (mzf_process s).currentPeriod = MZF_LONG_UP_US ∨
      (mzf_process s).currentPeriod = MZF_LONG_DOWN_US ∨
      (mzf_process s).currentPeriod = MZF_SHORT_UP_US ∨
      (mzf_process s).currentPeriod = MZF_SHORT_DOWN_US) ∧
    (∀ (s : CaqState) (n : Nat),
      (caqRun (n + 1) (caq_init s)).currentPeriod = 0 ∨
      (caqRun (n + 1) (caq_init s)).currentPeriod = CAQ_MARK_HALF_US ∨
      (caqRun (n + 1) (caq_init s)).currentPeriod = CAQ_SPACE_HALF_US) := by
  refine ⟨mzf_process_period, ?_⟩
  intro s n
  have hinv : caqInv (caqRun n (caq_init s)) :=
    caqRun_inv n (caq_init s) (caq_init_inv s)
  have hstep := (caq_step_inv (caqRun n (caq_init s)) hinv).2
  rw [show n + 1 = n + 1 from rfl, caqRun_add n 1]
  exact hstep

end MaxDuino
